import Mathlib

/-!
Verification of the polybot trading core: a shallow embedding of the
Account State Synchronizer (`StateManager`, src/trading/state.ts), the
Safety-Checked Executor (`OrderExecutor`, src/trading/executor.ts), the
Reconciler (`StateManager.reconcile`) and the Convergence strategy exit
logic (src/strategy/convergence.ts), together with theorems checking the
specified behaviour against this embedding.

Modelling conventions:
- JS numbers are modelled as rationals (`Rat`); timestamps (milliseconds,
  `Date.now()` values, SQL timestamps) as `Int`.
- Each `await`ed external call is an explicit input: the results of the
  upstream fetches are fields of a `FetchEnv`, the venue response to
  `createAndPostMarketOrder` is a `VenueResp`, and `Date.now()` values are
  explicit tick parameters.  A rejected promise / thrown exception is the
  `.error` / `.exn` alternative of the corresponding input.
- The SQLite tables `order_tracking` and `live_trades` are lists of rows;
  `INSERT` appends, `UPDATE ... WHERE` maps over the matching rows.
  The bookkeeping columns created_at / updated_at / filled_at are not
  observed by any claim and are omitted.
- Strings that the source builds by interpolation are built by
  concatenation; quote characters inside two log strings are elided.
- The executor records an event trace (`Ev`) of its writes and external
  calls, in program order, so ordering claims can be stated.
-/

/-- The `'YES' | 'NO'` token side of an order request. -/
inductive TokenSide where
  | yes
  | no
deriving DecidableEq, Repr

/-- Rendering of the side as the string used in the idempotency key. -/
def TokenSide.str : TokenSide → String
  | .yes => "YES"
  | .no => "NO"

/-- `syncSource: 'api' | 'cache'` of an `AccountState`. -/
inductive SyncSource where
  | api
  | cache
deriving DecidableEq, Repr

/-- One position as returned (already mapped) by the Data API
(`fetchPositionsFromDataAPI`, state.ts).  Numeric JSON fields are
rationals, `entryTime` an integer timestamp. -/
structure Position where
  marketId : String
  tokenId : String
  side : String
  size : Rat
  avgEntryPrice : Rat
  currentValue : Rat
  currentPrice : Rat
  unrealizedPnl : Rat
  entryTime : Int
  question : Option String
deriving DecidableEq, Repr

/-- An open order from `client.getOpenOrders()`; the numeric-string fields
`original_size`, `size_matched`, `price` are modelled as rationals. -/
structure OpenOrder where
  market : String
  originalSize : Rat
  sizeMatched : Rat
  price : Rat
deriving DecidableEq, Repr

/-- `AccountState` (state.ts lines 33-40). -/
structure AccountState where
  balance : Rat
  allowance : Rat
  positions : List Position
  openOrders : List OpenOrder
  lastSyncTime : Int
  syncSource : SyncSource
deriving DecidableEq, Repr

/-- Outcome of the Data API positions request: network failure (thrown),
non-ok HTTP status, or a parsed list of positions. -/
inductive DataApiResp where
  | netError (msg : String)
  | httpError (code : Nat)
  | ok (positions : List Position)
deriving DecidableEq, Repr

instance {e a : Type} [DecidableEq e] [DecidableEq a] : DecidableEq (Except e a) := fun
  | .ok x, .ok y =>
      if h : x = y then .isTrue (h ▸ rfl) else .isFalse (fun hh => h (Except.ok.inj hh))
  | .ok _, .error _ => .isFalse (fun hh => Except.noConfusion hh)
  | .error _, .ok _ => .isFalse (fun hh => Except.noConfusion hh)
  | .error x, .error y =>
      if h : x = y then .isTrue (h ▸ rfl) else .isFalse (fun hh => h (Except.error.inj hh))

/-- The results of the upstream fetches a single state refresh performs.
`clobBalance` is the `parseFloat(result.balance)` value of
`client.getBalanceAllowance` (micro-USDC), or the thrown error;
`onChainRpc` is the `eth_call` result (`none` when the RPC reply carries
no `result` field), or the thrown error; `openOrders` is the resolved
value of `client.getOpenOrders()` (nullable), or the thrown error. -/
structure FetchEnv where
  clobBalance : Except String Rat
  onChainRpc : Except String (Option Rat)
  openOrders : Except String (Option (List OpenOrder))
  dataApi : DataApiResp
deriving DecidableEq, Repr

/-- `StateManager` construction parameters that matter here. -/
structure SMCfg where
  staleThresholdMs : Int
deriving DecidableEq, Repr

/-- The mutable state of a `StateManager` (the in-memory cache). -/
structure SMState where
  cachedState : Option AccountState
deriving DecidableEq, Repr

/-- `fetchOnChainUSDC` (state.ts lines 308-334): any failure is caught and
returns 0; an absent RPC result returns 0; otherwise wei / 1e6. -/
def fetchOnChainUSDC (env : FetchEnv) : Rat :=
  match env.onChainRpc with
  | .error _ => 0
  | .ok none => 0
  | .ok (some wei) => wei / 1000000

/-- `fetchBalance` (state.ts lines 273-303): the CLOB read is tried and a
failure degrades to 0; the effective balance is the maximum of the CLOB
and on-chain readings; the allowance is reported equal to it. -/
def fetchBalance (env : FetchEnv) : Rat × Rat :=
  let clobBalance : Rat :=
    match env.clobBalance with
    | .ok v => v / 1000000
    | .error _ => 0
  let onChainBalance := fetchOnChainUSDC env
  let effectiveBalance := max clobBalance onChainBalance
  (effectiveBalance, effectiveBalance)

/-- `fetchOpenOrders` (state.ts lines 336-344): failure or null degrades
to the empty list. -/
def fetchOpenOrders (env : FetchEnv) : List OpenOrder :=
  match env.openOrders with
  | .ok (some os) => os
  | .ok none => []
  | .error _ => []

/-- `fetchPositionsFromDataAPI` (state.ts lines 360-388): a thrown fetch or
a non-ok HTTP status degrades to the empty list. -/
def fetchPositionsFromDataAPI (env : FetchEnv) : List Position :=
  match env.dataApi with
  | .ok ps => ps
  | .netError _ => []
  | .httpError _ => []

/-- The `Promise.all` of the three fetches in `getState`.  Each fetcher
absorbs its own failures, so the combined promise never rejects; the
`Except` layer is kept because `getState` translates the surrounding
try/catch. -/
def fetchAllState (env : FetchEnv) : Except String ((Rat × Rat) × List OpenOrder × List Position) :=
  Except.ok (fetchBalance env, fetchOpenOrders env, fetchPositionsFromDataAPI env)

/-- `getState` (state.ts lines 68-120).  Returns the (possibly cached)
state or the propagated failure, together with the updated manager
state.  `now` is the `Date.now()` of this call. -/
def getState (cfg : SMCfg) (sm : SMState) (env : FetchEnv) (now : Int)
    (forceRefresh : Bool) : Except String AccountState × SMState :=
  let freshCache : Option AccountState :=
    match sm.cachedState with
    | some c =>
        if !forceRefresh && (now - c.lastSyncTime < cfg.staleThresholdMs) then some c
        else none
    | none => none
  match freshCache with
  | some c => (.ok { c with syncSource := .cache }, sm)
  | none =>
      match fetchAllState env with
      | .ok (bal, oo, ps) =>
          let st : AccountState :=
            { balance := bal.1
              allowance := bal.2
              positions := ps
              openOrders := oo
              lastSyncTime := now
              syncSource := .api }
          (.ok st, { cachedState := some st })
      | .error e =>
          match sm.cachedState with
          | some c => (.ok { c with syncSource := .cache }, sm)
          | none => (.error ("Failed to fetch account state: " ++ e), sm)

/-- A row of the `live_trades` table.  Columns not mentioned by a given
INSERT are null (`none`); `id` is the integer primary key. -/
structure LiveTrade where
  id : Nat
  marketId : String
  tokenId : Option String
  question : Option String
  side : String
  entryPrice : Option Rat
  size : Rat
  sizeUsd : Option Rat
  status : String
  entryTime : Option Int
  orderId : Option String
  notes : Option String
deriving DecidableEq, Repr

/-- A row of the `order_tracking` table. -/
structure OrderTracking where
  idempotencyKey : String
  marketId : String
  tokenId : String
  side : String
  price : Rat
  size : Rat
  orderType : String
  status : String
  orderId : Option String
  errorMessage : Option String
  polymarketStatus : Option String
deriving DecidableEq, Repr

/-- The persistent ledger: both tables plus the next `live_trades` rowid. -/
structure Db where
  orderTracking : List OrderTracking
  liveTrades : List LiveTrade
  nextTradeId : Nat
deriving DecidableEq, Repr

/-- `data.find(...)` on positions: whether any position is in market `m`. -/
def hasPosL (ps : List Position) (m : String) : Bool :=
  ps.any (fun p => p.marketId == m)

/-- Whether any open order is in market `m`. -/
def hasOrdL (os : List OpenOrder) (m : String) : Bool :=
  os.any (fun o => o.market == m)

/-- `status IN ('open','pending')` filter of the reconciliation query. -/
def openOrPending (t : LiveTrade) : Bool :=
  t.status == "open" || t.status == "pending"

/-- The loop-1 condition of `reconcile` (state.ts line 221):
`!hasPosition && !hasOrder && localTrade.status === 'open'`. -/
def tradeFlagged (ps : List Position) (os : List OpenOrder) (t : LiveTrade) : Bool :=
  !hasPosL ps t.marketId && !hasOrdL os t.marketId && t.status == "open"

/-- The loop-1 UPDATE applied to one row (status to unknown plus note). -/
def markUnknown (t : LiveTrade) : LiveTrade :=
  { t with status := "unknown"
           notes := some "Reconciliation: position not found on Polymarket" }

/-- `UPDATE live_trades SET status='unknown', notes=... WHERE id = ?`. -/
def updateTradeUnknown (db : Db) (i : Nat) : Db :=
  { db with liveTrades := db.liveTrades.map (fun r => if r.id == i then markUnknown r else r) }

/-- The first discrepancy string of `reconcile` (quotes elided). -/
def discrepancyLocal (t : LiveTrade) : String :=
  "Local trade " ++ toString t.id ++ " shows open but no position/order on Polymarket"

/-- The second discrepancy string of `reconcile`. -/
def discrepancyExternal (p : Position) : String :=
  "Position in " ++ p.marketId ++ " exists on Polymarket but not in local database"

/-- The row inserted by the loop-2 INSERT of `reconcile` for position `p`. -/
def reconTradeRow (i : Nat) (p : Position) : LiveTrade :=
  { id := i
    marketId := p.marketId
    tokenId := none
    question := none
    side := p.side
    entryPrice := some p.avgEntryPrice
    size := p.size
    sizeUsd := none
    status := "open"
    entryTime := some p.entryTime
    orderId := none
    notes := some "Reconciliation: found on Polymarket" }

/-- `INSERT INTO live_trades ... 'Reconciliation: found on Polymarket'`. -/
def insertReconTrade (db : Db) (p : Position) : Db :=
  { db with liveTrades := db.liveTrades ++ [reconTradeRow db.nextTradeId p]
            nextTradeId := db.nextTradeId + 1 }

/-- Loop 1 of `reconcile` (state.ts lines 217-230): walk the snapshot of
open/pending local trades, flag and repair the stranded open ones. -/
def reconLoop1 (ps : List Position) (os : List OpenOrder) (localTrades : List LiveTrade)
    (acc : Db × List String) : Db × List String :=
  localTrades.foldl
    (fun acc t =>
      if tradeFlagged ps os t then
        (updateTradeUnknown acc.1 t.id, acc.2 ++ [discrepancyLocal t])
      else acc)
    acc

/-- Loop 2 of `reconcile` (state.ts lines 233-250): for every external
position with no record in the snapshot, insert a provenance-marked row. -/
def reconLoop2 (ps : List Position) (localTrades : List LiveTrade)
    (acc : Db × List String) : Db × List String :=
  ps.foldl
    (fun acc p =>
      if localTrades.any (fun t => t.marketId == p.marketId) then acc
      else (insertReconTrade acc.1 p, acc.2 ++ [discrepancyExternal p]))
    acc

/-- `reconcile` (state.ts lines 200-262).  A failure of the forced state
read propagates to the caller (in the embedding this branch is provably
unreachable, see `getState_force_ok`). -/
def reconcile (cfg : SMCfg) (db : Db) (sm : SMState) (env : FetchEnv) (now : Int) :
    Except String ((Bool × List String) × Db × SMState) :=
  match getState cfg sm env now true with
  | (.error e, _) => .error e
  | (.ok s, sm1) =>
      let localTrades := db.liveTrades.filter openOrPending
      let a1 := reconLoop1 s.positions s.openOrders localTrades (db, [])
      let a2 := reconLoop2 s.positions localTrades a1
      .ok ((a2.2.isEmpty, a2.2), a2.1, sm1)

/-- `OrderRequest` (executor.ts lines 28-35). -/
structure OrderRequest where
  marketId : String
  tokenId : String
  side : TokenSide
  sizeUsd : Rat
  price : Option Rat
  idempotencyKey : Option String
deriving DecidableEq, Repr

/-- `OrderResult` (executor.ts lines 37-45); absent optional fields are
`none`. -/
structure OrderResult where
  success : Bool
  orderId : Option String
  error : Option String
  orderStatus : Option String
  idempotencyKey : String
deriving DecidableEq, Repr

/-- The executor configuration fields used by the embedded methods. -/
structure ExecCfg where
  maxExposureUsd : Rat
  positionSizeUsd : Rat
  dryRun : Bool
deriving DecidableEq, Repr

/-- The resolved value of `client.createAndPostMarketOrder` when the
promise fulfils (the object may be null, and each field nullable). -/
structure VenueOrderRes where
  orderID : Option String
  orderId : Option String
  status : Option String
  errorMsg : Option String
deriving DecidableEq, Repr

/-- Venue response: fulfilment with a nullable result, or a rejection. -/
inductive VenueResp where
  | ok (res : Option VenueOrderRes)
  | exn (msg : String)
deriving DecidableEq, Repr

/-- The results of the awaited `StateManager` queries made by
`placeBuyOrder` (safety checks 3, 4 and 6). -/
structure StmEnv where
  hasPosition : Bool
  hasOrder : Bool
  totalExposure : Rat
  availableBalance : Rat
deriving DecidableEq, Repr

/-- All per-call inputs of one executor order placement: the minute bucket
and the `randomBytes(4).toString` value consumed by key generation, the
state-manager query results, the venue response, the two `Date.now()`
values read in the dry-run branch (`tick0` for the stored order id,
`tick1` for the returned one), and the SQL `CURRENT_TIMESTAMP`. -/
structure BuyEnv where
  bucket : Nat
  entropy : String
  stm : StmEnv
  venue : VenueResp
  tick0 : Int
  tick1 : Int
  nowSql : Int
deriving DecidableEq, Repr

/-- JS truthiness of a nullable string: non-null and non-empty. -/
def strTruthy : Option String → Bool
  | some s => !s.isEmpty
  | none => false

/-- JS `a || b` on nullable strings. -/
def jsOrStr (a b : Option String) : Option String :=
  if strTruthy a then a else b

/-- JS `a || d` on a nullable string with a non-empty string default. -/
def jsOrStrD (a : Option String) (d : String) : String :=
  match a with
  | some s => if s.isEmpty then d else s
  | none => d

/-- Rendering of a JS number in a template string; integral rationals
render as their integer (the only case the source exercises). -/
def ratStr (q : Rat) : String :=
  if q.den = 1 then toString q.num else toString q.num ++ "/" ++ toString q.den

/-- `generateIdempotencyKey` (executor.ts lines 439-446).  `bucket` is
`Math.floor(Date.now() / 60000)` and `entropy` the hex of
`randomBytes(4)`. -/
def generateIdempotencyKey (request : OrderRequest) (bucket : Nat) (entropy : String) : String :=
  "order_" ++ request.marketId ++ ":" ++ request.side.str ++ ":" ++ ratStr request.sizeUsd
    ++ ":" ++ toString bucket ++ "_" ++ entropy

/-- The observable actions of one executor call, in program order. -/
inductive Ev where
  | trackInsert (key : String) (status : String)
  | trackUpdate (key : String) (status : String)
  | flightAdd (m : String)
  | flightRemove (m : String)
  | submitToVenue (tokenId : String) (amount : Rat) (side : String)
  | tradeInsert (marketId : String) (status : String)
deriving DecidableEq, Repr

/-- Number of external order submissions in a trace. -/
def countSubmits (evs : List Ev) : Nat :=
  evs.countP (fun e => match e with | .submitToVenue _ _ _ => true | _ => false)

/-- Outcome of one executor call: the returned result, the database and
in-flight set afterwards, and the event trace. -/
structure ExecOut where
  result : OrderResult
  db : Db
  pending : List String
  events : List Ev
deriving DecidableEq, Repr

/-- `SELECT * FROM order_tracking WHERE idempotency_key = ?` (first row). -/
def lookupTracking (db : Db) (key : String) : Option OrderTracking :=
  db.orderTracking.find? (fun r => r.idempotencyKey == key)

/-- `UPDATE order_tracking SET ... WHERE idempotency_key = ?`. -/
def dbUpdateTracking (db : Db) (key : String) (f : OrderTracking → OrderTracking) : Db :=
  { db with orderTracking := db.orderTracking.map (fun r => if r.idempotencyKey == key then f r else r) }

/-- `Set.add` on the in-flight market set. -/
def setAdd (s : List String) (m : String) : List String :=
  if s.contains m then s else m :: s

/-- `Set.delete` on the in-flight market set. -/
def setDelete (s : List String) (m : String) : List String :=
  s.filter (fun x => x != m)

/-- The result returned by the idempotency short-circuit (executor.ts
lines 82-90): success is derived from the stored status, the stored
order id and error message are returned verbatim. -/
def replayResult (existing : OrderTracking) (key : String) : OrderResult :=
  { success := existing.status == "filled" || existing.status == "live"
    orderId := existing.orderId
    error := existing.errorMessage
    orderStatus := none
    idempotencyKey := key }

/-- A business-rejection result (`success:false` with a reason string). -/
def failResult (msg : String) (key : String) : OrderResult :=
  { success := false, orderId := none, error := some msg, orderStatus := none,
    idempotencyKey := key }

/-- The `created` tracking row inserted before submission (executor.ts
lines 146-157), for the given direction (`"BUY"` or `"SELL"`). -/
def createdRow (request : OrderRequest) (direction : String) (key : String) : OrderTracking :=
  { idempotencyKey := key
    marketId := request.marketId
    tokenId := request.tokenId
    side := direction
    price := request.price.getD 0
    size := request.sizeUsd
    orderType := "MARKET"
    status := "created"
    orderId := none
    errorMessage := none
    polymarketStatus := none }

/-- The live-trade row inserted on buy success (executor.ts lines 211-221);
note the status is `'open'`. -/
def buyTradeRow (request : OrderRequest) (orderId : Option String) (i : Nat) (nowSql : Int) : LiveTrade :=
  { id := i
    marketId := request.marketId
    tokenId := some request.tokenId
    question := none
    side := request.side.str
    entryPrice := none
    size := request.sizeUsd
    sizeUsd := some request.sizeUsd
    status := "open"
    entryTime := some nowSql
    orderId := orderId
    notes := none }

/-- The effective idempotency key of a buy: the caller-supplied key or the
freshly derived one (executor.ts line 71). -/
def buyKey (request : OrderRequest) (env : BuyEnv) : String :=
  request.idempotencyKey.getD (generateIdempotencyKey request env.bucket env.entropy)

/-- The effective idempotency key of a sell (executor.ts line 272): the
derived key always substitutes side `'NO'`. -/
def sellKey (request : OrderRequest) (env : BuyEnv) : String :=
  request.idempotencyKey.getD
    (generateIdempotencyKey { request with side := .no } env.bucket env.entropy)

/-- `placeBuyOrder` (executor.ts lines 70-266), as a function of the call
inputs.  The five pre-flight gates run in source order; the `finally`
block's in-flight removal is part of every post-`try` path. -/
def placeBuyOrder (cfg : ExecCfg) (db : Db) (pending : List String) (env : BuyEnv)
    (request : OrderRequest) : ExecOut :=
  let key := buyKey request env
  match lookupTracking db key with
  | some existingOrder =>
      { result := replayResult existingOrder key, db := db, pending := pending, events := [] }
  | none =>
      if pending.contains request.marketId then
        { result := failResult "Order already in flight for this market" key,
          db := db, pending := pending, events := [] }
      else if env.stm.hasPosition then
        { result := failResult "Already have position in this market" key,
          db := db, pending := pending, events := [] }
      else if env.stm.hasOrder then
        { result := failResult "Already have open order in this market" key,
          db := db, pending := pending, events := [] }
      else if cfg.maxExposureUsd < env.stm.totalExposure + request.sizeUsd then
        { result := failResult ("Would exceed max exposure ($" ++ ratStr cfg.maxExposureUsd ++ ")") key,
          db := db, pending := pending, events := [] }
      else if env.stm.availableBalance < request.sizeUsd then
        { result := failResult ("Insufficient balance: $" ++ ratStr env.stm.availableBalance
              ++ " < $" ++ ratStr request.sizeUsd) key,
          db := db, pending := pending, events := [] }
      else
        let db1 : Db := { db with orderTracking := db.orderTracking ++ [createdRow request "BUY" key] }
        let pending1 := setAdd pending request.marketId
        let ev0 : List Ev := [Ev.trackInsert key "created", Ev.flightAdd request.marketId]
        if cfg.dryRun then
          let db2 := dbUpdateTracking db1 key (fun r =>
            { r with status := "filled", orderId := some ("dry_" ++ toString env.tick0),
                     polymarketStatus := some "DRY_RUN" })
          { result := { success := true, orderId := some ("dry_" ++ toString env.tick1),
                        error := none, orderStatus := none, idempotencyKey := key },
            db := db2, pending := setDelete pending1 request.marketId,
            events := ev0 ++ [Ev.trackUpdate key "filled", Ev.flightRemove request.marketId] }
        else
          let db2 := dbUpdateTracking db1 key (fun r => { r with status := "submitted" })
          let evSub : List Ev := ev0 ++ [Ev.trackUpdate key "submitted",
            Ev.submitToVenue request.tokenId request.sizeUsd "BUY"]
          match env.venue with
          | .exn msg =>
              let db3 := dbUpdateTracking db2 key (fun r =>
                { r with status := "failed", errorMessage := some msg })
              { result := failResult msg key,
                db := db3, pending := setDelete pending1 request.marketId,
                events := evSub ++ [Ev.trackUpdate key "failed", Ev.flightRemove request.marketId] }
          | .ok res =>
              let orderId := jsOrStr (res.bind (fun r => r.orderID)) (res.bind (fun r => r.orderId))
              let orderStatus := jsOrStrD (res.bind (fun r => r.status)) "unknown"
              if strTruthy orderId then
                let db3 := dbUpdateTracking db2 key (fun r =>
                  { r with status := "filled", orderId := orderId,
                           polymarketStatus := some orderStatus })
                let db4 : Db := { db3 with
                  liveTrades := db3.liveTrades ++ [buyTradeRow request orderId db3.nextTradeId env.nowSql]
                  nextTradeId := db3.nextTradeId + 1 }
                { result := { success := true, orderId := orderId, error := none,
                              orderStatus := some orderStatus, idempotencyKey := key },
                  db := db4, pending := setDelete pending1 request.marketId,
                  events := evSub ++ [Ev.trackUpdate key "filled",
                    Ev.tradeInsert request.marketId "open", Ev.flightRemove request.marketId] }
              else
                let errorMsg := jsOrStrD (res.bind (fun r => r.errorMsg)) "No order ID returned"
                let db3 := dbUpdateTracking db2 key (fun r =>
                  { r with status := "failed", errorMessage := some errorMsg })
                { result := failResult errorMsg key,
                  db := db3, pending := setDelete pending1 request.marketId,
                  events := evSub ++ [Ev.trackUpdate key "failed", Ev.flightRemove request.marketId] }

/-- `placeSellOrder` (executor.ts lines 271-407).  The derived key always
substitutes side `'NO'`; the in-flight set is keyed `sell_` + market; the
exposure / balance / duplicate-position gates are absent; no live-trade
row is inserted. -/
def placeSellOrder (cfg : ExecCfg) (db : Db) (pending : List String) (env : BuyEnv)
    (request : OrderRequest) : ExecOut :=
  let key := sellKey request env
  let flightKey := "sell_" ++ request.marketId
  match lookupTracking db key with
  | some existingOrder =>
      { result := replayResult existingOrder key, db := db, pending := pending, events := [] }
  | none =>
      if pending.contains flightKey then
        { result := failResult "Sell order already in flight for this market" key,
          db := db, pending := pending, events := [] }
      else
        let db1 : Db := { db with orderTracking := db.orderTracking ++ [createdRow request "SELL" key] }
        let pending1 := setAdd pending flightKey
        let ev0 : List Ev := [Ev.trackInsert key "created", Ev.flightAdd flightKey]
        if cfg.dryRun then
          let db2 := dbUpdateTracking db1 key (fun r =>
            { r with status := "filled", orderId := some ("dry_sell_" ++ toString env.tick0),
                     polymarketStatus := some "DRY_RUN" })
          { result := { success := true, orderId := some ("dry_sell_" ++ toString env.tick1),
                        error := none, orderStatus := none, idempotencyKey := key },
            db := db2, pending := setDelete pending1 flightKey,
            events := ev0 ++ [Ev.trackUpdate key "filled", Ev.flightRemove flightKey] }
        else
          let db2 := dbUpdateTracking db1 key (fun r => { r with status := "submitted" })
          let evSub : List Ev := ev0 ++ [Ev.trackUpdate key "submitted",
            Ev.submitToVenue request.tokenId request.sizeUsd "SELL"]
          match env.venue with
          | .exn msg =>
              let db3 := dbUpdateTracking db2 key (fun r =>
                { r with status := "failed", errorMessage := some msg })
              { result := failResult msg key,
                db := db3, pending := setDelete pending1 flightKey,
                events := evSub ++ [Ev.trackUpdate key "failed", Ev.flightRemove flightKey] }
          | .ok res =>
              let orderId := jsOrStr (res.bind (fun r => r.orderID)) (res.bind (fun r => r.orderId))
              let orderStatus := jsOrStrD (res.bind (fun r => r.status)) "unknown"
              if strTruthy orderId then
                let db3 := dbUpdateTracking db2 key (fun r =>
                  { r with status := "filled", orderId := orderId,
                           polymarketStatus := some orderStatus })
                { result := { success := true, orderId := orderId, error := none,
                              orderStatus := some orderStatus, idempotencyKey := key },
                  db := db3, pending := setDelete pending1 flightKey,
                  events := evSub ++ [Ev.trackUpdate key "filled", Ev.flightRemove flightKey] }
              else
                let errorMsg := jsOrStrD (res.bind (fun r => r.errorMsg)) "No order ID returned"
                let db3 := dbUpdateTracking db2 key (fun r =>
                  { r with status := "failed", errorMessage := some errorMsg })
                { result := failResult errorMsg key,
                  db := db3, pending := setDelete pending1 flightKey,
                  events := evSub ++ [Ev.trackUpdate key "failed", Ev.flightRemove flightKey] }

/-- Result of `cancelAllOrders` (executor.ts lines 412-434). -/
structure CancelResult where
  success : Bool
  cancelled : Nat
  error : Option String
deriving DecidableEq, Repr

/-- `cancelAllOrders` (executor.ts lines 412-434): dry-run returns
immediately; otherwise the venue `cancelAll` runs, then a forced state
refresh; any exception inside the try is caught and returned as a
failure. -/
def cancelAllOrders (cfg : ExecCfg) (smCfg : SMCfg) (sm : SMState) (env : FetchEnv)
    (now : Int) (cancelResp : Except String Unit) : CancelResult × SMState :=
  if cfg.dryRun then
    ({ success := true, cancelled := 0, error := none }, sm)
  else
    match cancelResp with
    | .error e => ({ success := false, cancelled := 0, error := some e }, sm)
    | .ok _ =>
        match getState smCfg sm env now true with
        | (.ok _, sm1) => ({ success := true, cancelled := 0, error := none }, sm1)
        | (.error e, sm1) => ({ success := false, cancelled := 0, error := some e }, sm1)

/-- `StrategyConfig` fields used by the exit logic. -/
structure StrategyConfig where
  entryPriceMin : Rat
  entryPriceMax : Rat
  exitPriceTarget : Rat
  timeToResolutionDaysMin : Rat
  timeToResolutionDaysMax : Rat
  holdToResolution : Bool
deriving DecidableEq, Repr

/-- `RiskConfig` fields used by the strategy. -/
structure RiskConfig where
  maxPositions : Nat
  maxExposureUsd : Rat
  positionSizeUsd : Rat
  stopLossPercent : Option Rat
deriving DecidableEq, Repr

/-- `PricePoint` (timestamp in milliseconds, both side prices). -/
structure PricePoint where
  timestamp : Int
  yes_price : Rat
  no_price : Rat
deriving DecidableEq, Repr

/-- `Market` fields read by the strategy: `outcome` is the resolved
outcome string or null, `resolution_date` a timestamp or null/empty
(both falsy values collapse to `none`). -/
structure Market where
  id : String
  is_binary : Bool
  resolution_date : Option Int
  outcome : Option String
deriving DecidableEq, Repr

/-- `ExitSignal.reason` literals. -/
inductive ExitReason where
  | target
  | resolution
  | stop_loss
deriving DecidableEq, Repr

/-- `ExitSignal` (convergence.ts lines 27-32). -/
structure ExitSignal where
  marketId : String
  exitPrice : Rat
  timestamp : Int
  reason : ExitReason
deriving DecidableEq, Repr

/-- `checkExitConditions` (convergence.ts lines 139-188): target exit only
when not holding to resolution, then stop-loss (when configured), then
resolution exit at 1.0 / 0.0 once at or past the resolution date with a
known outcome. -/
def checkExitConditions (cfg : StrategyConfig) (risk : RiskConfig) (side : String)
    (entryPrice : Rat) (currentPrice : PricePoint) (market : Market) : Option ExitSignal :=
  let price := if side == "YES" then currentPrice.yes_price else currentPrice.no_price
  if !cfg.holdToResolution && decide (cfg.exitPriceTarget ≤ price) then
    some { marketId := market.id, exitPrice := price,
           timestamp := currentPrice.timestamp, reason := .target }
  else
    let stopHit : Bool :=
      match risk.stopLossPercent with
      | some slp => decide (price ≤ entryPrice * (1 - slp / 100))
      | none => false
    if stopHit then
      some { marketId := market.id, exitPrice := price,
             timestamp := currentPrice.timestamp, reason := .stop_loss }
    else
      match market.outcome, market.resolution_date with
      | some outcome, some resolutionDate =>
          if resolutionDate ≤ currentPrice.timestamp then
            some { marketId := market.id,
                   exitPrice := if outcome == side then (1 : Rat) else 0,
                   timestamp := currentPrice.timestamp, reason := .resolution }
          else none
      | some _, none => none
      | none, _ => none

/-- The tracking row as it stands after a successful live submission:
the created row updated to `submitted` and then to `filled`. -/
def filledTrackRow (request : OrderRequest) (direction key : String)
    (orderId : Option String) (orderStatus : String) : OrderTracking :=
  { createdRow request direction key with
      status := "filled", orderId := orderId, polymarketStatus := some orderStatus }

/-- The tracking row after a failed live submission. -/
def failedTrackRow (request : OrderRequest) (direction key msg : String) : OrderTracking :=
  { createdRow request direction key with
      status := "failed", errorMessage := some msg }

/-- The tracking row after a dry-run fill. -/
def dryTrackRow (request : OrderRequest) (direction key oid : String) : OrderTracking :=
  { createdRow request direction key with
      status := "filled", orderId := some oid, polymarketStatus := some "DRY_RUN" }

/-- Concrete order request fixture: market m1, YES, $10, no caller key. -/
def reqW : OrderRequest :=
  { marketId := "m1", tokenId := "t1", side := .yes, sizeUsd := 10, price := none,
    idempotencyKey := none }

/-- Concrete state-manager query results: no position, no order, zero
exposure, $100 available. -/
def stmW : StmEnv :=
  { hasPosition := false, hasOrder := false, totalExposure := 0, availableBalance := 100 }

/-- Concrete call environment with the given entropy and venue response;
the dry-run branch reads clock ticks 5 (stored id) and 6 (returned id). -/
def envW (entropy : String) (venue : VenueResp) : BuyEnv :=
  { bucket := 1000, entropy := entropy, stm := stmW, venue := venue,
    tick0 := 5, tick1 := 6, nowSql := 0 }

/-- Live-mode executor configuration: $50 exposure cap, $10 sizing. -/
def cfgLive : ExecCfg := { maxExposureUsd := 50, positionSizeUsd := 10, dryRun := false }

/-- Dry-run executor configuration. -/
def cfgDry : ExecCfg := { maxExposureUsd := 50, positionSizeUsd := 10, dryRun := true }

/-- Empty ledger fixture. -/
def dbEmpty : Db := { orderTracking := [], liveTrades := [], nextTradeId := 1 }

/-- A fulfilled venue response carrying order id x1. -/
def venueOkW : VenueResp :=
  .ok (some { orderID := some "x1", orderId := none, status := some "matched", errorMsg := none })

/-- A fulfilled venue response carrying order id x2. -/
def venueOk2W : VenueResp :=
  .ok (some { orderID := some "x2", orderId := none, status := some "matched", errorMsg := none })

/-- First dry-run call of the C1 counterexample. -/
def o1Dry : ExecOut := placeBuyOrder cfgDry dbEmpty [] (envW "aaaaaaaa" venueOkW) reqW

/-- Replay of the same key against the ledger the first dry-run call wrote. -/
def o2Dry : ExecOut :=
  placeBuyOrder cfgDry o1Dry.db o1Dry.pending (envW "aaaaaaaa" venueOkW)
    { reqW with idempotencyKey := some (buyKey reqW (envW "aaaaaaaa" venueOkW)) }

/-- First live call with entropy aaaaaaaa (no caller-supplied key). -/
def o1Rand : ExecOut := placeBuyOrder cfgLive dbEmpty [] (envW "aaaaaaaa" venueOkW) reqW

/-- Repeat of the identical request in the same minute bucket; only the
`randomBytes` draw differs. -/
def o2Rand : ExecOut :=
  placeBuyOrder cfgLive o1Rand.db o1Rand.pending (envW "bbbbbbbb" venueOk2W) reqW

/-- A successful live buy used to inspect the created live-trade row. -/
def o1Live : ExecOut := placeBuyOrder cfgLive dbEmpty [] (envW "aaaaaaaa" venueOkW) reqW

/-- Fetch environment in which every upstream source fails. -/
def envFail : FetchEnv :=
  { clobBalance := .error "down", onChainRpc := .error "down",
    openOrders := .error "down", dataApi := .netError "down" }

/-- A live-trade row with status pending for market m1. -/
def pendingRow : LiveTrade :=
  { id := 1, marketId := "m1", tokenId := none, question := none, side := "YES",
    entryPrice := none, size := 10, sizeUsd := some 10, status := "pending",
    entryTime := none, orderId := none, notes := none }

/-- Ledger holding only the pending m1 row. -/
def dbPend : Db := { orderTracking := [], liveTrades := [pendingRow], nextTradeId := 2 }

/-- The same row with status open. -/
def openRow : LiveTrade := { pendingRow with status := "open" }

/-- Ledger holding only the stranded open m1 row. -/
def dbOpen : Db := { orderTracking := [], liveTrades := [openRow], nextTradeId := 2 }

/-! ### General lemmas -/

theorem find?_append_of_forall_neg {A : Type} (p : A → Bool) (l1 l2 : List A)
    (h : ∀ x ∈ l1, p x = false) : (l1 ++ l2).find? p = l2.find? p := by
  induction l1 with
  | nil => rfl
  | cons a l ih =>
      have ha : p a = false := h a (by simp)
      simp only [List.cons_append, List.find?, ha]
      exact ih (fun x hx => h x (by simp [hx]))

theorem map_if_id {A : Type} (p : A → Bool) (g : A → A) (l : List A)
    (h : ∀ x ∈ l, p x = false) : l.map (fun r => if p r then g r else r) = l := by
  induction l with
  | nil => rfl
  | cons a l ih =>
      have ha : p a = false := h a (by simp)
      simp only [List.map_cons, ha, if_neg, Bool.false_eq_true, not_false_eq_true, List.cons.injEq,
        true_and]
      exact ih (fun x hx => h x (by simp [hx]))

theorem map_id_of_forall {A : Type} (F : A → A) (l : List A)
    (h : ∀ x ∈ l, F x = x) : l.map F = l := by
  induction l with
  | nil => rfl
  | cons a l ih =>
      simp only [List.map_cons, h a (by simp), List.cons.injEq, true_and]
      exact ih (fun x hx => h x (by simp [hx]))

theorem getState_force_ok (cfg : SMCfg) (sm : SMState) (env : FetchEnv) (now : Int) :
    getState cfg sm env now true =
      (.ok { balance := (fetchBalance env).1, allowance := (fetchBalance env).2,
             positions := fetchPositionsFromDataAPI env,
             openOrders := fetchOpenOrders env,
             lastSyncTime := now, syncSource := .api },
       { cachedState := some
           { balance := (fetchBalance env).1, allowance := (fetchBalance env).2,
             positions := fetchPositionsFromDataAPI env,
             openOrders := fetchOpenOrders env,
             lastSyncTime := now, syncSource := .api } }) := by
  cases sm with
  | mk cached => cases cached <;> rfl

theorem lookupTracking_none_forall {db : Db} {key : String}
    (h : lookupTracking db key = none) :
    ∀ r ∈ db.orderTracking, (r.idempotencyKey == key) = false := by
  intro r hr
  have h2 := List.find?_eq_none.mp h r hr
  simpa using h2

/-! ### Executor branch lemmas -/

theorem buy_replay (cfg : ExecCfg) (db : Db) (pending : List String) (env : BuyEnv)
    (request : OrderRequest) (r : OrderTracking)
    (h : lookupTracking db (buyKey request env) = some r) :
    placeBuyOrder cfg db pending env request =
      { result := replayResult r (buyKey request env), db := db, pending := pending,
        events := [] } := by
  simp [placeBuyOrder, h]

theorem sell_replay (cfg : ExecCfg) (db : Db) (pending : List String) (env : BuyEnv)
    (request : OrderRequest) (r : OrderTracking)
    (h : lookupTracking db (sellKey request env) = some r) :
    placeSellOrder cfg db pending env request =
      { result := replayResult r (sellKey request env), db := db, pending := pending,
        events := [] } := by
  simp [placeSellOrder, h]

theorem buy_inflight_reject (cfg : ExecCfg) (db : Db) (pending : List String) (env : BuyEnv)
    (request : OrderRequest)
    (hn : lookupTracking db (buyKey request env) = none)
    (hc : pending.contains request.marketId = true) :
    placeBuyOrder cfg db pending env request =
      { result := failResult "Order already in flight for this market" (buyKey request env),
        db := db, pending := pending, events := [] } := by
  have hc2 : request.marketId ∈ pending := by simpa using hc
  simp [placeBuyOrder, hn, hc2]

theorem buy_position_reject (cfg : ExecCfg) (db : Db) (pending : List String) (env : BuyEnv)
    (request : OrderRequest)
    (hn : lookupTracking db (buyKey request env) = none)
    (hc : pending.contains request.marketId = false)
    (hp : env.stm.hasPosition = true) :
    placeBuyOrder cfg db pending env request =
      { result := failResult "Already have position in this market" (buyKey request env),
        db := db, pending := pending, events := [] } := by
  have hc2 : request.marketId ∉ pending := by simpa using hc
  simp [placeBuyOrder, hn, hc2, hp]

theorem buy_order_reject (cfg : ExecCfg) (db : Db) (pending : List String) (env : BuyEnv)
    (request : OrderRequest)
    (hn : lookupTracking db (buyKey request env) = none)
    (hc : pending.contains request.marketId = false)
    (hp : env.stm.hasPosition = false)
    (ho : env.stm.hasOrder = true) :
    placeBuyOrder cfg db pending env request =
      { result := failResult "Already have open order in this market" (buyKey request env),
        db := db, pending := pending, events := [] } := by
  have hc2 : request.marketId ∉ pending := by simpa using hc
  simp [placeBuyOrder, hn, hc2, hp, ho]

theorem buy_exposure_reject (cfg : ExecCfg) (db : Db) (pending : List String) (env : BuyEnv)
    (request : OrderRequest)
    (hn : lookupTracking db (buyKey request env) = none)
    (hc : pending.contains request.marketId = false)
    (hp : env.stm.hasPosition = false)
    (ho : env.stm.hasOrder = false)
    (he : cfg.maxExposureUsd < env.stm.totalExposure + request.sizeUsd) :
    placeBuyOrder cfg db pending env request =
      { result := failResult ("Would exceed max exposure ($" ++ ratStr cfg.maxExposureUsd ++ ")")
            (buyKey request env),
        db := db, pending := pending, events := [] } := by
  have hc2 : request.marketId ∉ pending := by simpa using hc
  simp [placeBuyOrder, hn, hc2, hp, ho, he]

theorem buy_balance_reject (cfg : ExecCfg) (db : Db) (pending : List String) (env : BuyEnv)
    (request : OrderRequest)
    (hn : lookupTracking db (buyKey request env) = none)
    (hc : pending.contains request.marketId = false)
    (hp : env.stm.hasPosition = false)
    (ho : env.stm.hasOrder = false)
    (hne : ¬ cfg.maxExposureUsd < env.stm.totalExposure + request.sizeUsd)
    (hb : env.stm.availableBalance < request.sizeUsd) :
    placeBuyOrder cfg db pending env request =
      { result := failResult ("Insufficient balance: $" ++ ratStr env.stm.availableBalance
            ++ " < $" ++ ratStr request.sizeUsd) (buyKey request env),
        db := db, pending := pending, events := [] } := by
  have hc2 : request.marketId ∉ pending := by simpa using hc
  simp [placeBuyOrder, hn, hc2, hp, ho, hne, hb]

theorem buy_pass_dry (cfg : ExecCfg) (db : Db) (pending : List String) (env : BuyEnv)
    (request : OrderRequest)
    (hn : lookupTracking db (buyKey request env) = none)
    (hc : pending.contains request.marketId = false)
    (hp : env.stm.hasPosition = false)
    (ho : env.stm.hasOrder = false)
    (hne : ¬ cfg.maxExposureUsd < env.stm.totalExposure + request.sizeUsd)
    (hnb : ¬ env.stm.availableBalance < request.sizeUsd)
    (hd : cfg.dryRun = true) :
    placeBuyOrder cfg db pending env request =
      { result := { success := true, orderId := some ("dry_" ++ toString env.tick1),
                    error := none, orderStatus := none, idempotencyKey := buyKey request env },
        db := { db with orderTracking := db.orderTracking ++
                  [dryTrackRow request "BUY" (buyKey request env) ("dry_" ++ toString env.tick0)] },
        pending := setDelete (setAdd pending request.marketId) request.marketId,
        events := [Ev.trackInsert (buyKey request env) "created", Ev.flightAdd request.marketId,
                   Ev.trackUpdate (buyKey request env) "filled",
                   Ev.flightRemove request.marketId] } := by
  have hc2 : request.marketId ∉ pending := by simpa using hc
  have hall := lookupTracking_none_forall hn
  simp [placeBuyOrder, hn, hc2, hp, ho, hne, hnb, hd, dbUpdateTracking,
    dryTrackRow, createdRow]
  exact map_id_of_forall _ _ (fun r hr => by
    have hrq : ¬ r.idempotencyKey = buyKey request env := by simpa using hall r hr
    simp [Function.comp, hrq])

theorem buy_pass_live_ok (cfg : ExecCfg) (db : Db) (pending : List String) (env : BuyEnv)
    (request : OrderRequest) (res : Option VenueOrderRes)
    (hn : lookupTracking db (buyKey request env) = none)
    (hc : pending.contains request.marketId = false)
    (hp : env.stm.hasPosition = false)
    (ho : env.stm.hasOrder = false)
    (hne : ¬ cfg.maxExposureUsd < env.stm.totalExposure + request.sizeUsd)
    (hnb : ¬ env.stm.availableBalance < request.sizeUsd)
    (hd : cfg.dryRun = false)
    (hv : env.venue = .ok res)
    (ht : strTruthy (jsOrStr (res.bind (fun r => r.orderID)) (res.bind (fun r => r.orderId))) = true) :
    placeBuyOrder cfg db pending env request =
      { result := { success := true,
                    orderId := jsOrStr (res.bind (fun r => r.orderID)) (res.bind (fun r => r.orderId)),
                    error := none,
                    orderStatus := some (jsOrStrD (res.bind (fun r => r.status)) "unknown"),
                    idempotencyKey := buyKey request env },
        db := { db with
                orderTracking := db.orderTracking ++
                  [filledTrackRow request "BUY" (buyKey request env)
                    (jsOrStr (res.bind (fun r => r.orderID)) (res.bind (fun r => r.orderId)))
                    (jsOrStrD (res.bind (fun r => r.status)) "unknown")],
                liveTrades := db.liveTrades ++
                  [buyTradeRow request
                    (jsOrStr (res.bind (fun r => r.orderID)) (res.bind (fun r => r.orderId)))
                    db.nextTradeId env.nowSql],
                nextTradeId := db.nextTradeId + 1 },
        pending := setDelete (setAdd pending request.marketId) request.marketId,
        events := [Ev.trackInsert (buyKey request env) "created", Ev.flightAdd request.marketId,
                   Ev.trackUpdate (buyKey request env) "submitted",
                   Ev.submitToVenue request.tokenId request.sizeUsd "BUY",
                   Ev.trackUpdate (buyKey request env) "filled",
                   Ev.tradeInsert request.marketId "open",
                   Ev.flightRemove request.marketId] } := by
  have hc2 : request.marketId ∉ pending := by simpa using hc
  have hall := lookupTracking_none_forall hn
  simp [placeBuyOrder, hn, hc2, hp, ho, hne, hnb, hd, hv, ht, dbUpdateTracking,
    filledTrackRow, createdRow]
  exact map_id_of_forall _ _ (fun r hr => by
    have hrq : ¬ r.idempotencyKey = buyKey request env := by simpa using hall r hr
    simp [Function.comp, hrq])

theorem buy_pass_live_noid (cfg : ExecCfg) (db : Db) (pending : List String) (env : BuyEnv)
    (request : OrderRequest) (res : Option VenueOrderRes)
    (hn : lookupTracking db (buyKey request env) = none)
    (hc : pending.contains request.marketId = false)
    (hp : env.stm.hasPosition = false)
    (ho : env.stm.hasOrder = false)
    (hne : ¬ cfg.maxExposureUsd < env.stm.totalExposure + request.sizeUsd)
    (hnb : ¬ env.stm.availableBalance < request.sizeUsd)
    (hd : cfg.dryRun = false)
    (hv : env.venue = .ok res)
    (ht : strTruthy (jsOrStr (res.bind (fun r => r.orderID)) (res.bind (fun r => r.orderId))) = false) :
    placeBuyOrder cfg db pending env request =
      { result := failResult (jsOrStrD (res.bind (fun r => r.errorMsg)) "No order ID returned")
            (buyKey request env),
        db := { db with
                orderTracking := db.orderTracking ++
                  [failedTrackRow request "BUY" (buyKey request env)
                    (jsOrStrD (res.bind (fun r => r.errorMsg)) "No order ID returned")] },
        pending := setDelete (setAdd pending request.marketId) request.marketId,
        events := [Ev.trackInsert (buyKey request env) "created", Ev.flightAdd request.marketId,
                   Ev.trackUpdate (buyKey request env) "submitted",
                   Ev.submitToVenue request.tokenId request.sizeUsd "BUY",
                   Ev.trackUpdate (buyKey request env) "failed",
                   Ev.flightRemove request.marketId] } := by
  have hc2 : request.marketId ∉ pending := by simpa using hc
  have hall := lookupTracking_none_forall hn
  simp [placeBuyOrder, hn, hc2, hp, ho, hne, hnb, hd, hv, ht, dbUpdateTracking,
    failedTrackRow, createdRow]
  exact map_id_of_forall _ _ (fun r hr => by
    have hrq : ¬ r.idempotencyKey = buyKey request env := by simpa using hall r hr
    simp [Function.comp, hrq])

theorem buy_pass_live_exn (cfg : ExecCfg) (db : Db) (pending : List String) (env : BuyEnv)
    (request : OrderRequest) (msg : String)
    (hn : lookupTracking db (buyKey request env) = none)
    (hc : pending.contains request.marketId = false)
    (hp : env.stm.hasPosition = false)
    (ho : env.stm.hasOrder = false)
    (hne : ¬ cfg.maxExposureUsd < env.stm.totalExposure + request.sizeUsd)
    (hnb : ¬ env.stm.availableBalance < request.sizeUsd)
    (hd : cfg.dryRun = false)
    (hv : env.venue = .exn msg) :
    placeBuyOrder cfg db pending env request =
      { result := failResult msg (buyKey request env),
        db := { db with
                orderTracking := db.orderTracking ++
                  [failedTrackRow request "BUY" (buyKey request env) msg] },
        pending := setDelete (setAdd pending request.marketId) request.marketId,
        events := [Ev.trackInsert (buyKey request env) "created", Ev.flightAdd request.marketId,
                   Ev.trackUpdate (buyKey request env) "submitted",
                   Ev.submitToVenue request.tokenId request.sizeUsd "BUY",
                   Ev.trackUpdate (buyKey request env) "failed",
                   Ev.flightRemove request.marketId] } := by
  have hc2 : request.marketId ∉ pending := by simpa using hc
  have hall := lookupTracking_none_forall hn
  simp [placeBuyOrder, hn, hc2, hp, ho, hne, hnb, hd, hv, dbUpdateTracking,
    failedTrackRow, createdRow]
  exact map_id_of_forall _ _ (fun r hr => by
    have hrq : ¬ r.idempotencyKey = buyKey request env := by simpa using hall r hr
    simp [Function.comp, hrq])

theorem lookupTracking_of_append (tr : List OrderTracking) (row : OrderTracking)
    (key : String) (lt : List LiveTrade) (nid : Nat)
    (h : ∀ r ∈ tr, (r.idempotencyKey == key) = false)
    (hr : (row.idempotencyKey == key) = true) :
    lookupTracking { orderTracking := tr ++ [row], liveTrades := lt, nextTradeId := nid } key
      = some row := by
  unfold lookupTracking
  rw [find?_append_of_forall_neg _ _ _ h]
  simp [List.find?, hr]

/-! ### Claim theorems: synchronizer -/

/-- C5: the synchronizer's balance resolution takes the maximum of the
venue-reported (CLOB) balance and the on-chain balance; in particular,
when the venue reports $0 and the on-chain reading is $37.50 (37500000
micro-USDC), a forced `getState` reports an effective balance of exactly
$37.50 = 75/2. -/
theorem c5_balance_asymmetric_trust :
    (∀ env : FetchEnv, (fetchBalance env).1 =
      max (match env.clobBalance with | .ok v => v / 1000000 | .error _ => 0)
          (match env.onChainRpc with
            | .ok (some w) => w / 1000000
            | .ok none => 0
            | .error _ => 0))
    ∧ (∀ (cfg : SMCfg) (sm : SMState) (now : Int)
         (oo : Except String (Option (List OpenOrder))) (da : DataApiResp),
         ∃ s : AccountState,
           (getState cfg sm
              { clobBalance := .ok 0, onChainRpc := .ok (some 37500000),
                openOrders := oo, dataApi := da } now true).1 = .ok s
           ∧ s.balance = 75 / 2) := by
  constructor
  · intro env
    obtain ⟨cb, onc, oo, da⟩ := env
    cases cb with
    | error e => cases onc with
      | error e2 => rfl
      | ok o => cases o <;> rfl
    | ok v => cases onc with
      | error e2 => rfl
      | ok o => cases o <;> rfl
  · intro cfg sm now oo da
    have h := getState_force_ok cfg sm
      { clobBalance := .ok 0, onChainRpc := .ok (some 37500000),
        openOrders := oo, dataApi := da } now
    refine ⟨_, by rw [h], ?_⟩
    show (fetchBalance { clobBalance := .ok 0, onChainRpc := .ok (some 37500000), openOrders := oo, dataApi := da }).1 = 75 / 2
    norm_num [fetchBalance, fetchOnChainUSDC]

/-- C10: no single upstream fetch failure makes a forced `getState` throw
or fall back to the stale cache: for every combination of component
outcomes the call returns a state tagged `syncSource = api` with
`lastSyncTime = now` and the cache overwritten, the failed components
degrading to 0 / empty lists; with all four upstream fetches failing the
fresh-looking state reports balance 0, no positions and no open orders. -/
theorem c10_getState_degraded_fetches :
    (∀ (cfg : SMCfg) (sm : SMState) (env : FetchEnv) (now : Int),
      ∃ s : AccountState,
        getState cfg sm env now true = (.ok s, { cachedState := some s })
        ∧ s.syncSource = .api ∧ s.lastSyncTime = now
        ∧ s.balance = (fetchBalance env).1
        ∧ s.openOrders = fetchOpenOrders env
        ∧ s.positions = fetchPositionsFromDataAPI env)
    ∧ (∀ (cfg : SMCfg) (sm : SMState) (now : Int) (m1 m2 m3 m4 : String),
      ∃ s : AccountState,
        getState cfg sm
          { clobBalance := .error m1, onChainRpc := .error m2,
            openOrders := .error m3, dataApi := .netError m4 } now true
          = (.ok s, { cachedState := some s })
        ∧ s.syncSource = .api ∧ s.lastSyncTime = now
        ∧ s.balance = 0 ∧ s.positions = [] ∧ s.openOrders = []) := by
  constructor
  · intro cfg sm env now
    exact ⟨_, getState_force_ok cfg sm env now, rfl, rfl, rfl, rfl, rfl⟩
  · intro cfg sm now m1 m2 m3 m4
    refine ⟨_, getState_force_ok cfg sm _ now, rfl, rfl, ?_, rfl, rfl⟩
    show (fetchBalance { clobBalance := .error m1, onChainRpc := .error m2, openOrders := .error m3, dataApi := .netError m4 }).1 = 0
    simp [fetchBalance, fetchOnChainUSDC]

/-! ### Claim theorems: cancel-all -/

/-- C9: when the venue-side `cancelAll` succeeds, `cancelAllOrders`
returns `success: true` for every possible outcome of the subsequent
forced state refresh — each refresh component may fail arbitrarily and
the result is unaffected, so the refresh is advisory only. -/
theorem c9_cancelAll_refresh_advisory (mx ps : Rat) (smCfg : SMCfg) (sm : SMState)
    (env : FetchEnv) (now : Int) :
    (cancelAllOrders { maxExposureUsd := mx, positionSizeUsd := ps, dryRun := false }
        smCfg sm env now (.ok ())).1
      = { success := true, cancelled := 0, error := none } := by
  have h := getState_force_ok smCfg sm env now
  simp [cancelAllOrders, h]

/-! ### Claim theorems: strategy exit logic -/

/-- C6: `checkExitConditions` evaluates the closing triggers in priority
order target, stop-loss, resolution: a `target` exit is only possible
when `holdToResolution` is false; a configured stop-loss breach (with the
target trigger not firing, in particular whenever `holdToResolution` is
true) yields reason `stop_loss`; with neither earlier trigger firing, a
price point at or after the resolution date of a market with a known
outcome yields reason `resolution` with exit price exactly 1.0 when the
held side equals the outcome and exactly 0.0 otherwise (so a held NO
position in a market resolved YES exits at exactly 0.0). -/
theorem c6_exit_priority (cfg : StrategyConfig) (risk : RiskConfig) (side : String)
    (entryPrice : Rat) (cp : PricePoint) (m : Market) :
    (∀ sig : ExitSignal, cfg.holdToResolution = true →
       checkExitConditions cfg risk side entryPrice cp m = some sig →
       sig.reason ≠ ExitReason.target)
    ∧ (∀ slp : Rat,
       (cfg.holdToResolution = true
         ∨ (if side == "YES" then cp.yes_price else cp.no_price) < cfg.exitPriceTarget) →
       risk.stopLossPercent = some slp →
       (if side == "YES" then cp.yes_price else cp.no_price) ≤ entryPrice * (1 - slp / 100) →
       checkExitConditions cfg risk side entryPrice cp m
         = some { marketId := m.id,
                  exitPrice := (if side == "YES" then cp.yes_price else cp.no_price),
                  timestamp := cp.timestamp, reason := ExitReason.stop_loss })
    ∧ (∀ (outcome : String) (resolutionDate : Int),
       (cfg.holdToResolution = true
         ∨ (if side == "YES" then cp.yes_price else cp.no_price) < cfg.exitPriceTarget) →
       (∀ slp : Rat, risk.stopLossPercent = some slp →
          entryPrice * (1 - slp / 100) < (if side == "YES" then cp.yes_price else cp.no_price)) →
       m.outcome = some outcome → m.resolution_date = some resolutionDate →
       resolutionDate ≤ cp.timestamp →
       checkExitConditions cfg risk side entryPrice cp m
         = some { marketId := m.id,
                  exitPrice := if outcome == side then (1 : Rat) else 0,
                  timestamp := cp.timestamp, reason := ExitReason.resolution }) := by
  refine ⟨?_, ?_, ?_⟩
  · intro sig hhold heq
    simp only [checkExitConditions, hhold, Bool.not_true, Bool.false_and, Bool.false_eq_true,
      if_false] at heq
    split at heq
    all_goals try split at heq
    all_goals try split at heq
    all_goals try split at heq
    all_goals try (injection heq with heq2)
    all_goals try (subst heq2)
    all_goals simp_all
  · intro slp htargetOff hsl hbreach
    simp only [beq_iff_eq] at htargetOff hbreach
    have hcond : (!cfg.holdToResolution
        && decide (cfg.exitPriceTarget ≤ (if side = "YES" then cp.yes_price else cp.no_price)))
        = false := by
      rcases htargetOff with h | h
      · simp [h]
      · simp [not_le.mpr h]
    simp only [checkExitConditions, beq_iff_eq]
    rw [hcond]
    simp [hsl, hbreach]
  · intro outcome resolutionDate htargetOff hstopOff hout hres hts
    simp only [beq_iff_eq] at htargetOff hstopOff
    have hcond : (!cfg.holdToResolution
        && decide (cfg.exitPriceTarget ≤ (if side = "YES" then cp.yes_price else cp.no_price)))
        = false := by
      rcases htargetOff with h | h
      · simp [h]
      · simp [not_le.mpr h]
    simp only [checkExitConditions, beq_iff_eq]
    rw [hcond]
    rcases hsl : risk.stopLossPercent with _ | slp
    · simp [hout, hres, hts]
    · have hlt := hstopOff slp hsl
      simp [not_le.mpr hlt, hout, hres, hts]

/-- Witness for C6: a held NO position in a market resolved YES, checked
at a price point past the resolution date with no stop-loss configured,
exits with reason `resolution` at exit price exactly 0. -/
theorem c6_exit_priority_witness :
    checkExitConditions
      { entryPriceMin := 7/10, entryPriceMax := 9/10, exitPriceTarget := 95/100,
        timeToResolutionDaysMin := 1, timeToResolutionDaysMax := 5, holdToResolution := true }
      { maxPositions := 5, maxExposureUsd := 50, positionSizeUsd := 10, stopLossPercent := none }
      "NO" (3/10)
      { timestamp := 100, yes_price := 95/100, no_price := 5/100 }
      { id := "mw", is_binary := true, resolution_date := some 50, outcome := some "YES" }
      = some { marketId := "mw", exitPrice := 0, timestamp := 100,
               reason := ExitReason.resolution } := by
  have h := (c6_exit_priority
      { entryPriceMin := 7/10, entryPriceMax := 9/10, exitPriceTarget := 95/100,
        timeToResolutionDaysMin := 1, timeToResolutionDaysMax := 5, holdToResolution := true }
      { maxPositions := 5, maxExposureUsd := 50, positionSizeUsd := 10, stopLossPercent := none }
      "NO" (3/10)
      { timestamp := 100, yes_price := 95/100, no_price := 5/100 }
      { id := "mw", is_binary := true, resolution_date := some 50, outcome := some "YES" }).2.2
      "YES" 50 (Or.inl rfl)
      (fun slp hslp => by cases hslp) rfl rfl (by decide)
  simpa using h

/-! ### Claim theorems: executor -/

/-- C3: the buy pre-flight checks run in the exact order idempotency
lookup, in-flight guard, existing position, open order, exposure limit,
balance sufficiency; each failure returns `success:false` with a
descriptive error and leaves the call with an empty event trace (no
external submission, no tracking write); when all checks pass the trace
begins with the `created` tracking insert followed by the in-flight add,
and in live mode the venue submission is the fourth event — strictly
after both. -/
theorem c3_buy_preflight_sequence (cfg : ExecCfg) (db : Db) (pending : List String)
    (env : BuyEnv) (request : OrderRequest) :
    (∀ r, lookupTracking db (buyKey request env) = some r →
       placeBuyOrder cfg db pending env request
         = { result := replayResult r (buyKey request env), db := db, pending := pending,
             events := [] })
    ∧ (lookupTracking db (buyKey request env) = none →
       pending.contains request.marketId = true →
       placeBuyOrder cfg db pending env request
         = { result := failResult "Order already in flight for this market" (buyKey request env),
             db := db, pending := pending, events := [] })
    ∧ (lookupTracking db (buyKey request env) = none →
       pending.contains request.marketId = false →
       env.stm.hasPosition = true →
       placeBuyOrder cfg db pending env request
         = { result := failResult "Already have position in this market" (buyKey request env),
             db := db, pending := pending, events := [] })
    ∧ (lookupTracking db (buyKey request env) = none →
       pending.contains request.marketId = false →
       env.stm.hasPosition = false →
       env.stm.hasOrder = true →
       placeBuyOrder cfg db pending env request
         = { result := failResult "Already have open order in this market" (buyKey request env),
             db := db, pending := pending, events := [] })
    ∧ (lookupTracking db (buyKey request env) = none →
       pending.contains request.marketId = false →
       env.stm.hasPosition = false →
       env.stm.hasOrder = false →
       cfg.maxExposureUsd < env.stm.totalExposure + request.sizeUsd →
       placeBuyOrder cfg db pending env request
         = { result := failResult ("Would exceed max exposure ($" ++ ratStr cfg.maxExposureUsd
               ++ ")") (buyKey request env),
             db := db, pending := pending, events := [] })
    ∧ (lookupTracking db (buyKey request env) = none →
       pending.contains request.marketId = false →
       env.stm.hasPosition = false →
       env.stm.hasOrder = false →
       ¬ cfg.maxExposureUsd < env.stm.totalExposure + request.sizeUsd →
       env.stm.availableBalance < request.sizeUsd →
       placeBuyOrder cfg db pending env request
         = { result := failResult ("Insufficient balance: $" ++ ratStr env.stm.availableBalance
               ++ " < $" ++ ratStr request.sizeUsd) (buyKey request env),
             db := db, pending := pending, events := [] })
    ∧ (lookupTracking db (buyKey request env) = none →
       pending.contains request.marketId = false →
       env.stm.hasPosition = false →
       env.stm.hasOrder = false →
       ¬ cfg.maxExposureUsd < env.stm.totalExposure + request.sizeUsd →
       ¬ env.stm.availableBalance < request.sizeUsd →
       (∃ rest : List Ev,
          (placeBuyOrder cfg db pending env request).events
            = Ev.trackInsert (buyKey request env) "created"
              :: Ev.flightAdd request.marketId :: rest)
       ∧ (cfg.dryRun = false →
          (placeBuyOrder cfg db pending env request).events.take 4
            = [Ev.trackInsert (buyKey request env) "created",
               Ev.flightAdd request.marketId,
               Ev.trackUpdate (buyKey request env) "submitted",
               Ev.submitToVenue request.tokenId request.sizeUsd "BUY"])) := by
  refine ⟨fun r h => buy_replay cfg db pending env request r h,
    fun hn hc => buy_inflight_reject cfg db pending env request hn hc,
    fun hn hc hp => buy_position_reject cfg db pending env request hn hc hp,
    fun hn hc hp ho => buy_order_reject cfg db pending env request hn hc hp ho,
    fun hn hc hp ho he => buy_exposure_reject cfg db pending env request hn hc hp ho he,
    fun hn hc hp ho hne hb => buy_balance_reject cfg db pending env request hn hc hp ho hne hb,
    ?_⟩
  intro hn hc hp ho hne hnb
  constructor
  · cases hd : cfg.dryRun with
    | true =>
        rw [buy_pass_dry cfg db pending env request hn hc hp ho hne hnb hd]
        exact ⟨_, rfl⟩
    | false =>
        cases hv : env.venue with
        | exn msg =>
            rw [buy_pass_live_exn cfg db pending env request msg hn hc hp ho hne hnb hd hv]
            exact ⟨_, rfl⟩
        | ok res =>
            cases ht : strTruthy (jsOrStr (res.bind (fun r => r.orderID))
                (res.bind (fun r => r.orderId))) with
            | true =>
                rw [buy_pass_live_ok cfg db pending env request res hn hc hp ho hne hnb hd hv ht]
                exact ⟨_, rfl⟩
            | false =>
                rw [buy_pass_live_noid cfg db pending env request res hn hc hp ho hne hnb hd hv ht]
                exact ⟨_, rfl⟩
  · intro hd
    cases hv : env.venue with
    | exn msg =>
        rw [buy_pass_live_exn cfg db pending env request msg hn hc hp ho hne hnb hd hv]
        rfl
    | ok res =>
        cases ht : strTruthy (jsOrStr (res.bind (fun r => r.orderID))
            (res.bind (fun r => r.orderId))) with
        | true =>
            rw [buy_pass_live_ok cfg db pending env request res hn hc hp ho hne hnb hd hv ht]
            rfl
        | false =>
            rw [buy_pass_live_noid cfg db pending env request res hn hc hp ho hne hnb hd hv ht]
            rfl

/-- Witness for C3: with an empty ledger and market m1 already in the
in-flight set, the call is rejected by the in-flight guard with an empty
event trace and an untouched ledger. -/
theorem c3_buy_preflight_sequence_witness :
    placeBuyOrder cfgLive dbEmpty ["m1"] (envW "aaaaaaaa" venueOkW) reqW
      = { result := failResult "Order already in flight for this market"
            (buyKey reqW (envW "aaaaaaaa" venueOkW)),
          db := dbEmpty, pending := ["m1"], events := [] } :=
  (c3_buy_preflight_sequence cfgLive dbEmpty ["m1"] (envW "aaaaaaaa" venueOkW) reqW).2.1
    (by decide) (by decide)

/-- C1 (amended): a call whose effective idempotency key already has a
tracking record short-circuits: it performs zero external submissions,
writes nothing, and returns the result derived from the stored record
(success iff stored status is filled/live, with the stored order id and
error), for both the buy and the sell path; in live (non-dry-run) mode a
second call with the first call's key returns the same success/failure,
orderId and error as the first call.  (In dry-run mode the first call's
returned orderId is regenerated from the clock and can differ from the
stored one — see the counterexample.) -/
theorem c1_idempotent_short_circuit (cfg : ExecCfg) (db : Db) (pending : List String)
    (env : BuyEnv) (request : OrderRequest) :
    (∀ r, lookupTracking db (buyKey request env) = some r →
        placeBuyOrder cfg db pending env request
          = { result := replayResult r (buyKey request env), db := db, pending := pending,
              events := [] })
    ∧ (∀ r, lookupTracking db (sellKey request env) = some r →
        placeSellOrder cfg db pending env request
          = { result := replayResult r (sellKey request env), db := db, pending := pending,
              events := [] })
    ∧ (∀ env2 : BuyEnv,
        cfg.dryRun = false →
        lookupTracking db (buyKey request env) = none →
        pending.contains request.marketId = false →
        env.stm.hasPosition = false →
        env.stm.hasOrder = false →
        ¬ cfg.maxExposureUsd < env.stm.totalExposure + request.sizeUsd →
        ¬ env.stm.availableBalance < request.sizeUsd →
        let o1 := placeBuyOrder cfg db pending env request
        let o2 := placeBuyOrder cfg o1.db o1.pending env2
          { request with idempotencyKey := some (buyKey request env) }
        o2.result.success = o1.result.success
        ∧ o2.result.orderId = o1.result.orderId
        ∧ o2.result.error = o1.result.error
        ∧ o2.db = o1.db
        ∧ o2.events = []
        ∧ countSubmits o2.events = 0) := by
  refine ⟨fun r h => buy_replay cfg db pending env request r h,
    fun r h => sell_replay cfg db pending env request r h, ?_⟩
  intro env2 hd hn hc hp ho hne hnb
  dsimp only
  have hall := lookupTracking_none_forall hn
  have hkey2 : ∀ row : OrderTracking, (row.idempotencyKey == buyKey request env) = true →
      ∀ lt nid, lookupTracking
        { orderTracking := db.orderTracking ++ [row], liveTrades := lt, nextTradeId := nid }
        (buyKey request env) = some row :=
    fun row hrow lt nid => lookupTracking_of_append _ row _ lt nid hall hrow
  cases hv : env.venue with
  | exn msg =>
      rw [buy_pass_live_exn cfg db pending env request msg hn hc hp ho hne hnb hd hv]
      have hrep := buy_replay cfg
        { db with orderTracking := db.orderTracking ++
            [failedTrackRow request "BUY" (buyKey request env) msg] }
        (setDelete (setAdd pending request.marketId) request.marketId) env2
        { request with idempotencyKey := some (buyKey request env) }
        (failedTrackRow request "BUY" (buyKey request env) msg)
        (hkey2 _ (by simp [failedTrackRow, createdRow]) _ _)
      rw [hrep]
      refine ⟨by simp [replayResult, failedTrackRow, createdRow, failResult], rfl, rfl, rfl, rfl, rfl⟩
  | ok res =>
      cases ht : strTruthy (jsOrStr (res.bind (fun r => r.orderID))
          (res.bind (fun r => r.orderId))) with
      | true =>
          rw [buy_pass_live_ok cfg db pending env request res hn hc hp ho hne hnb hd hv ht]
          have hrep := buy_replay cfg
            { db with
              orderTracking := db.orderTracking ++
                [filledTrackRow request "BUY" (buyKey request env)
                  (jsOrStr (res.bind (fun r => r.orderID)) (res.bind (fun r => r.orderId)))
                  (jsOrStrD (res.bind (fun r => r.status)) "unknown")],
              liveTrades := db.liveTrades ++
                [buyTradeRow request
                  (jsOrStr (res.bind (fun r => r.orderID)) (res.bind (fun r => r.orderId)))
                  db.nextTradeId env.nowSql],
              nextTradeId := db.nextTradeId + 1 }
            (setDelete (setAdd pending request.marketId) request.marketId) env2
            { request with idempotencyKey := some (buyKey request env) }
            (filledTrackRow request "BUY" (buyKey request env)
              (jsOrStr (res.bind (fun r => r.orderID)) (res.bind (fun r => r.orderId)))
              (jsOrStrD (res.bind (fun r => r.status)) "unknown"))
            (hkey2 _ (by simp [filledTrackRow, createdRow]) _ _)
          rw [hrep]
          refine ⟨by simp [replayResult, filledTrackRow, createdRow], rfl, rfl, rfl, rfl, rfl⟩
      | false =>
          rw [buy_pass_live_noid cfg db pending env request res hn hc hp ho hne hnb hd hv ht]
          have hrep := buy_replay cfg
            { db with orderTracking := db.orderTracking ++
                [failedTrackRow request "BUY" (buyKey request env)
                  (jsOrStrD (res.bind (fun r => r.errorMsg)) "No order ID returned")] }
            (setDelete (setAdd pending request.marketId) request.marketId) env2
            { request with idempotencyKey := some (buyKey request env) }
            (failedTrackRow request "BUY" (buyKey request env)
              (jsOrStrD (res.bind (fun r => r.errorMsg)) "No order ID returned"))
            (hkey2 _ (by simp [failedTrackRow, createdRow]) _ _)
          rw [hrep]
          refine ⟨by simp [replayResult, failedTrackRow, createdRow, failResult], rfl, rfl, rfl, rfl, rfl⟩

/-- Counterexample for C1: in dry-run mode the first call stores order id
`dry_` + the first `Date.now()` tick (5) but returns `dry_` + the second
tick (6); the replay with the same key then returns the stored
`dry_5`, which differs from the orderId the first call returned — so the
second call's orderId is not byte-identical to the first call's. -/
theorem c1_counterexample :
    o1Dry.result.orderId = some "dry_6"
    ∧ o2Dry.result.orderId = some "dry_5"
    ∧ ¬ o2Dry.result.orderId = o1Dry.result.orderId
    ∧ o2Dry.events = []
    ∧ o2Dry.db = o1Dry.db := by
  have e1 : o1Dry = _ := buy_pass_dry cfgDry dbEmpty [] (envW "aaaaaaaa" venueOkW) reqW
    rfl rfl rfl rfl (by norm_num [cfgDry, envW, stmW, reqW])
    (by norm_num [cfgDry, envW, stmW, reqW]) rfl
  have hlook : lookupTracking o1Dry.db (buyKey reqW (envW "aaaaaaaa" venueOkW))
      = some (dryTrackRow reqW "BUY" (buyKey reqW (envW "aaaaaaaa" venueOkW))
          ("dry_" ++ toString (5 : Int))) := by
    rw [e1]
    decide
  have e2 : o2Dry = _ := buy_replay cfgDry o1Dry.db o1Dry.pending (envW "aaaaaaaa" venueOkW)
    { reqW with idempotencyKey := some (buyKey reqW (envW "aaaaaaaa" venueOkW)) }
    (dryTrackRow reqW "BUY" (buyKey reqW (envW "aaaaaaaa" venueOkW)) ("dry_" ++ toString (5 : Int)))
    hlook
  rw [e2, e1]
  decide

/-- Witness for C1: in live mode the replay of a failed submission
returns exactly the first call's orderId (here both are `none`): the
amended theorem applied to the concrete request m1/YES/$10 with the
venue fulfilling with order id x1. -/
theorem c1_idempotent_short_circuit_witness :
    (placeBuyOrder cfgLive
        (placeBuyOrder cfgLive dbEmpty [] (envW "aaaaaaaa" venueOkW) reqW).db
        (placeBuyOrder cfgLive dbEmpty [] (envW "aaaaaaaa" venueOkW) reqW).pending
        (envW "bbbbbbbb" venueOkW)
        { reqW with idempotencyKey := some (buyKey reqW (envW "aaaaaaaa" venueOkW)) }).result.orderId
      = (placeBuyOrder cfgLive dbEmpty [] (envW "aaaaaaaa" venueOkW) reqW).result.orderId := by
  have h := (c1_idempotent_short_circuit cfgLive dbEmpty [] (envW "aaaaaaaa" venueOkW) reqW).2.2
      (envW "bbbbbbbb" venueOkW) rfl rfl rfl rfl rfl
      (by norm_num [cfgLive, envW, stmW, reqW]) (by norm_num [cfgLive, envW, stmW, reqW])
  exact h.2.1

/-- C2 (code bug): the idempotency-key derivation appends four random
bytes, so the identical request (m1, YES, $10) in the same minute bucket
with two different `randomBytes` draws derives two different keys; the
second call therefore misses the idempotency lookup, performs a second
external submission, and writes a second tracking record, instead of the
claimed collapse to one logical action — contradicting both the spec and
the function's own doc comment. -/
theorem c2_random_suffix_defeats_dedup :
    ¬ generateIdempotencyKey reqW 1000 "aaaaaaaa" = generateIdempotencyKey reqW 1000 "bbbbbbbb"
    ∧ countSubmits o1Rand.events = 1
    ∧ countSubmits o2Rand.events = 1
    ∧ o1Rand.db.orderTracking.length = 1
    ∧ o2Rand.db.orderTracking.length = 2
    ∧ o1Rand.result.success = true
    ∧ o2Rand.result.success = true := by
  have e1 : o1Rand = _ := buy_pass_live_ok cfgLive dbEmpty [] (envW "aaaaaaaa" venueOkW) reqW
    (some { orderID := some "x1", orderId := none, status := some "matched", errorMsg := none })
    rfl rfl rfl rfl (by norm_num [cfgLive, envW, stmW, reqW])
    (by norm_num [cfgLive, envW, stmW, reqW]) rfl rfl (by decide)
  have hn2 : lookupTracking o1Rand.db (buyKey reqW (envW "bbbbbbbb" venueOk2W)) = none := by
    rw [e1]
    decide
  have hc2 : o1Rand.pending.contains reqW.marketId = false := by
    rw [e1]
    decide
  have e2 : o2Rand = _ := buy_pass_live_ok cfgLive o1Rand.db o1Rand.pending
    (envW "bbbbbbbb" venueOk2W) reqW
    (some { orderID := some "x2", orderId := none, status := some "matched", errorMsg := none })
    hn2 hc2 rfl rfl (by norm_num [cfgLive, envW, stmW, reqW])
    (by norm_num [cfgLive, envW, stmW, reqW]) rfl rfl (by decide)
  refine ⟨by decide, ?_, ?_, ?_, ?_, ?_, ?_⟩
  · rw [e1]
    rfl
  · rw [e2]
    rfl
  · rw [e1]
    decide
  · rw [e2, e1]
    decide
  · rw [e1]
  · rw [e2]

/-- C8 (amended): for every buy order whose external submission succeeds
(the venue returns a truthy order id), the executor transitions the
tracking record to status `filled` and creates a corresponding live-trade
row — whose status is `open` (not `pending` as the spec claims; see the
counterexample). -/
theorem c8_buy_success_records (cfg : ExecCfg) (db : Db) (pending : List String)
    (env : BuyEnv) (request : OrderRequest) (res : Option VenueOrderRes)
    (hn : lookupTracking db (buyKey request env) = none)
    (hc : pending.contains request.marketId = false)
    (hp : env.stm.hasPosition = false)
    (ho : env.stm.hasOrder = false)
    (hne : ¬ cfg.maxExposureUsd < env.stm.totalExposure + request.sizeUsd)
    (hnb : ¬ env.stm.availableBalance < request.sizeUsd)
    (hd : cfg.dryRun = false)
    (hv : env.venue = .ok res)
    (ht : strTruthy (jsOrStr (res.bind (fun r => r.orderID)) (res.bind (fun r => r.orderId)))
      = true) :
    (placeBuyOrder cfg db pending env request).result.success = true
    ∧ (placeBuyOrder cfg db pending env request).db.orderTracking
        = db.orderTracking ++ [filledTrackRow request "BUY" (buyKey request env)
            (jsOrStr (res.bind (fun r => r.orderID)) (res.bind (fun r => r.orderId)))
            (jsOrStrD (res.bind (fun r => r.status)) "unknown")]
    ∧ (filledTrackRow request "BUY" (buyKey request env)
        (jsOrStr (res.bind (fun r => r.orderID)) (res.bind (fun r => r.orderId)))
        (jsOrStrD (res.bind (fun r => r.status)) "unknown")).status = "filled"
    ∧ (placeBuyOrder cfg db pending env request).db.liveTrades
        = db.liveTrades ++ [buyTradeRow request
            (jsOrStr (res.bind (fun r => r.orderID)) (res.bind (fun r => r.orderId)))
            db.nextTradeId env.nowSql]
    ∧ (buyTradeRow request
        (jsOrStr (res.bind (fun r => r.orderID)) (res.bind (fun r => r.orderId)))
        db.nextTradeId env.nowSql).status = "open" := by
  rw [buy_pass_live_ok cfg db pending env request res hn hc hp ho hne hnb hd hv ht]
  exact ⟨rfl, rfl, rfl, rfl, rfl⟩

/-- Counterexample for C8: a concrete successful live buy (m1, YES, $10,
venue fulfils with order id x1) creates its live-trade row with status
`open`, not the claimed `pending`. -/
theorem c8_counterexample :
    o1Live.result.success = true
    ∧ o1Live.db.liveTrades.map (fun t => t.status) = ["open"]
    ∧ ¬ o1Live.db.liveTrades.map (fun t => t.status) = ["pending"] := by
  have e1 : o1Live = _ := buy_pass_live_ok cfgLive dbEmpty [] (envW "aaaaaaaa" venueOkW) reqW
    (some { orderID := some "x1", orderId := none, status := some "matched", errorMsg := none })
    rfl rfl rfl rfl (by norm_num [cfgLive, envW, stmW, reqW])
    (by norm_num [cfgLive, envW, stmW, reqW]) rfl rfl (by decide)
  rw [e1]
  decide

/-- Witness for C8: the amended theorem applied at the concrete inputs of
the counterexample scenario, giving a successful result. -/
theorem c8_buy_success_records_witness :
    (placeBuyOrder cfgLive dbEmpty [] (envW "aaaaaaaa" venueOkW) reqW).result.success = true :=
  (c8_buy_success_records cfgLive dbEmpty [] (envW "aaaaaaaa" venueOkW) reqW
    (some { orderID := some "x1", orderId := none, status := some "matched", errorMsg := none })
    rfl rfl rfl rfl (by norm_num [cfgLive, envW, stmW, reqW])
    (by norm_num [cfgLive, envW, stmW, reqW]) rfl rfl (by decide)).1

/-! ### Reconciliation lemmas -/

theorem reconLoop1_nil (ps : List Position) (os : List OpenOrder) (acc : Db × List String) :
    reconLoop1 ps os [] acc = acc := rfl

theorem reconLoop1_cons (ps : List Position) (os : List OpenOrder) (t : LiveTrade)
    (L : List LiveTrade) (acc : Db × List String) :
    reconLoop1 ps os (t :: L) acc
      = reconLoop1 ps os L
          (if tradeFlagged ps os t then
            (updateTradeUnknown acc.1 t.id, acc.2 ++ [discrepancyLocal t])
          else acc) := rfl

theorem reconLoop2_cons (p : Position) (ps : List Position) (L : List LiveTrade)
    (acc : Db × List String) :
    reconLoop2 (p :: ps) L acc
      = reconLoop2 ps L
          (if L.any (fun t => t.marketId == p.marketId) then acc
           else (insertReconTrade acc.1 p, acc.2 ++ [discrepancyExternal p])) := rfl

theorem reconLoop1_acc (ps : List Position) (os : List OpenOrder) (L : List LiveTrade) :
    ∀ (db0 : Db) (acc0 : List String),
    (reconLoop1 ps os L (db0, acc0)).2
      = acc0 ++ (L.filter (tradeFlagged ps os)).map discrepancyLocal := by
  induction L with
  | nil => intro db0 acc0; simp [reconLoop1]
  | cons t L ih =>
      intro db0 acc0
      rw [reconLoop1_cons]
      by_cases hf : tradeFlagged ps os t = true
      · rw [if_pos hf, ih]
        simp [List.filter_cons, hf]
      · have hf2 : tradeFlagged ps os t = false := by simpa using hf
        rw [if_neg (by simp [hf2]), ih]
        simp [List.filter_cons, hf2]

theorem reconLoop1_db (ps : List Position) (os : List OpenOrder) (L : List LiveTrade) :
    ∀ (db0 : Db) (acc0 : List String),
    (reconLoop1 ps os L (db0, acc0)).1
      = { db0 with liveTrades := db0.liveTrades.map (fun r =>
            if (L.filter (tradeFlagged ps os)).any (fun t => t.id == r.id)
            then markUnknown r else r) } := by
  induction L with
  | nil =>
      intro db0 acc0
      simp [reconLoop1]
  | cons t L ih =>
      intro db0 acc0
      rw [reconLoop1_cons]
      by_cases hf : tradeFlagged ps os t = true
      · rw [if_pos hf, ih]
        simp only [updateTradeUnknown, List.map_map, List.filter_cons, hf, if_true]
        refine congrArg (fun l => Db.mk db0.orderTracking l db0.nextTradeId) ?_
        refine congrArg (fun f => List.map f db0.liveTrades) (funext fun r => ?_)
        simp only [Function.comp_apply, List.any_cons]
        by_cases hB : (r.id == t.id) = true
        · have hr : r.id = t.id := by simpa using hB
          have hsym : (t.id == r.id) = true := by simp [hr]
          rw [if_pos hB]
          show (if ((List.filter (tradeFlagged ps os) L).any fun x => x.id == r.id) = true
              then markUnknown r else markUnknown r)
            = if ((t.id == r.id) || (List.filter (tradeFlagged ps os) L).any fun x => x.id == r.id)
                = true
              then markUnknown r else r
          rw [ite_self, hsym, Bool.true_or, if_pos rfl]
        · have hB2 : (r.id == t.id) = false := by simpa using hB
          have hr : ¬ r.id = t.id := by simpa using hB
          have hsym : (t.id == r.id) = false := by
            simp only [beq_eq_false_iff_ne, ne_eq]
            exact fun h => hr h.symm
          rw [if_neg (show ¬((r.id == t.id) = true) from by simp [hB2])]
          show (if ((List.filter (tradeFlagged ps os) L).any fun x => x.id == r.id) = true
              then markUnknown r else r)
            = if ((t.id == r.id) || (List.filter (tradeFlagged ps os) L).any fun x => x.id == r.id)
                = true
              then markUnknown r else r
          rw [hsym, Bool.false_or]
      · have hf2 : tradeFlagged ps os t = false := by simpa using hf
        rw [if_neg (by simp [hf2]), ih]
        simp [List.filter_cons, hf2]

theorem reconLoop2_acc (L : List LiveTrade) (ps : List Position) :
    ∀ acc : Db × List String,
    (reconLoop2 ps L acc).2
      = acc.2 ++ (ps.filter
          (fun p => !(L.any (fun t => t.marketId == p.marketId)))).map discrepancyExternal := by
  induction ps with
  | nil => intro acc; simp [reconLoop2]
  | cons p ps ih =>
      intro acc
      rw [reconLoop2_cons]
      by_cases hm : (L.any (fun t => t.marketId == p.marketId)) = true
      · rw [if_pos hm, ih]
        simp [List.filter_cons, hm]
      · have hm2 : (L.any (fun t => t.marketId == p.marketId)) = false := by simpa using hm
        rw [if_neg (by simp [hm2]), ih]
        simp [List.filter_cons, hm2]

theorem reconLoop2_db (L : List LiveTrade) (ps : List Position) :
    ∀ acc : Db × List String,
    ∃ suf : List LiveTrade,
      (reconLoop2 ps L acc).1.liveTrades = acc.1.liveTrades ++ suf
      ∧ (reconLoop2 ps L acc).1.orderTracking = acc.1.orderTracking
      ∧ ∀ r ∈ suf, r.status = "open"
          ∧ r.notes = some "Reconciliation: found on Polymarket"
          ∧ ∃ p ∈ ps, r.marketId = p.marketId := by
  induction ps with
  | nil =>
      intro acc
      exact ⟨[], by simp [reconLoop2], rfl, by simp⟩
  | cons p ps ih =>
      intro acc
      rw [reconLoop2_cons]
      by_cases hm : (L.any (fun t => t.marketId == p.marketId)) = true
      · rw [if_pos hm]
        obtain ⟨suf, h1, h2, h3⟩ := ih acc
        refine ⟨suf, h1, h2, fun r hr => ?_⟩
        obtain ⟨ha, hb, q, hq, hmq⟩ := h3 r hr
        exact ⟨ha, hb, q, List.mem_cons_of_mem p hq, hmq⟩
      · have hm2 : (L.any (fun t => t.marketId == p.marketId)) = false := by simpa using hm
        rw [if_neg (by simp [hm2])]
        obtain ⟨suf, h1, h2, h3⟩ :=
          ih (insertReconTrade acc.1 p, acc.2 ++ [discrepancyExternal p])
        refine ⟨reconTradeRow acc.1.nextTradeId p :: suf, ?_, ?_, ?_⟩
        · rw [h1]
          simp [insertReconTrade]
        · rw [h2]
          simp [insertReconTrade]
        · intro r hr
          rcases List.mem_cons.mp hr with h | h
          · subst h
            exact ⟨rfl, rfl, p, List.mem_cons_self p ps, rfl⟩
          · obtain ⟨ha, hb, q, hq, hmq⟩ := h3 r h
            exact ⟨ha, hb, q, List.mem_cons_of_mem p hq, hmq⟩

theorem reconLoop2_inserts (L : List LiveTrade) (p : Position)
    (hm : (L.any (fun t => t.marketId == p.marketId)) = false) :
    ∀ (ps : List Position) (acc : Db × List String), p ∈ ps →
    ∃ r ∈ (reconLoop2 ps L acc).1.liveTrades,
      r.marketId = p.marketId ∧ r.status = "open"
      ∧ r.notes = some "Reconciliation: found on Polymarket" := by
  intro ps
  induction ps with
  | nil => intro acc h; cases h
  | cons q ps ih =>
      intro acc hp
      rw [reconLoop2_cons]
      rcases List.mem_cons.mp hp with h | hp2
      · subst h
        rw [if_neg (by simp [hm])]
        obtain ⟨suf, h1, _, _⟩ :=
          reconLoop2_db L ps (insertReconTrade acc.1 p, acc.2 ++ [discrepancyExternal p])
        refine ⟨reconTradeRow acc.1.nextTradeId p, ?_, rfl, rfl, rfl⟩
        rw [h1]
        simp [insertReconTrade]
      · by_cases hq : (L.any (fun t => t.marketId == q.marketId)) = true
        · rw [if_pos hq]
          exact ih _ hp2
        · rw [if_neg (by simp at hq ⊢; exact hq)]
          exact ih _ hp2

theorem reconLoop1_noop (ps : List Position) (os : List OpenOrder) (L : List LiveTrade)
    (h : ∀ t ∈ L, tradeFlagged ps os t = false) :
    ∀ acc : Db × List String, reconLoop1 ps os L acc = acc := by
  induction L with
  | nil => intro acc; rfl
  | cons t L ih =>
      intro acc
      rw [reconLoop1_cons, if_neg (by simp [h t (List.mem_cons_self t L)])]
      exact ih (fun x hx => h x (List.mem_cons_of_mem t hx)) acc

theorem reconLoop2_noop (L : List LiveTrade) (ps : List Position)
    (h : ∀ p ∈ ps, (L.any (fun t => t.marketId == p.marketId)) = true) :
    ∀ acc : Db × List String, reconLoop2 ps L acc = acc := by
  induction ps with
  | nil => intro acc; rfl
  | cons p ps ih =>
      intro acc
      rw [reconLoop2_cons, if_pos (h p (List.mem_cons_self p ps))]
      exact ih (fun x hx => h x (List.mem_cons_of_mem p hx)) acc

theorem reconcile_force (smCfg : SMCfg) (db : Db) (sm : SMState) (env : FetchEnv) (now : Int) :
    reconcile smCfg db sm env now
      = .ok
          (((reconLoop2 (fetchPositionsFromDataAPI env)
                (db.liveTrades.filter openOrPending)
                (reconLoop1 (fetchPositionsFromDataAPI env) (fetchOpenOrders env)
                  (db.liveTrades.filter openOrPending) (db, []))).2.isEmpty,
            (reconLoop2 (fetchPositionsFromDataAPI env)
                (db.liveTrades.filter openOrPending)
                (reconLoop1 (fetchPositionsFromDataAPI env) (fetchOpenOrders env)
                  (db.liveTrades.filter openOrPending) (db, []))).2),
           (reconLoop2 (fetchPositionsFromDataAPI env)
              (db.liveTrades.filter openOrPending)
              (reconLoop1 (fetchPositionsFromDataAPI env) (fetchOpenOrders env)
                (db.liveTrades.filter openOrPending) (db, []))).1,
           { cachedState := some
               { balance := (fetchBalance env).1, allowance := (fetchBalance env).2,
                 positions := fetchPositionsFromDataAPI env,
                 openOrders := fetchOpenOrders env,
                 lastSyncTime := now, syncSource := .api } }) := by
  unfold reconcile
  rw [getState_force_ok]

/-! ### Claim theorems: reconciler -/

/-- C7: `reconcile` is idempotent: with the external state unchanged and
no intervening ledger writes apart from the first call's own repairs, a
second call reports zero discrepancies (`synced = true`) and leaves the
ledger untouched. -/
theorem c7_reconcile_idempotent (smCfg : SMCfg) (db : Db) (sm : SMState) (env : FetchEnv)
    (t1 t2 : Int)
    (hids : (db.liveTrades.map (fun t => t.id)).Nodup) :
    ∃ (r1 : Bool × List String) (db1 : Db) (sm1 sm2 : SMState),
      reconcile smCfg db sm env t1 = .ok (r1, db1, sm1)
      ∧ reconcile smCfg db1 sm1 env t2 = .ok ((true, []), db1, sm2) := by
  set ps := fetchPositionsFromDataAPI env with hps
  set os := fetchOpenOrders env with hos
  set L := db.liveTrades.filter openOrPending with hLdef
  set a1 := reconLoop1 ps os L (db, []) with ha1
  set db2 := (reconLoop2 ps L a1).1 with hdb2
  have e1 := reconcile_force smCfg db sm env t1
  rw [← hps, ← hos, ← hLdef, ← ha1, ← hdb2] at e1
  obtain ⟨suf, hpre, htrk, hshape⟩ := reconLoop2_db L ps a1
  have hpre2 : db2.liveTrades = a1.1.liveTrades ++ suf := by rw [hdb2]; exact hpre
  have hdb1 := reconLoop1_db ps os L db []
  rw [← ha1] at hdb1
  have hF1 : ∀ r ∈ db2.liveTrades, r.status = "open" →
      hasPosL ps r.marketId = true ∨ hasOrdL os r.marketId = true := by
    intro r hr hopen
    rw [hpre2] at hr
    rcases List.mem_append.mp hr with h | h
    · rw [hdb1] at h
      have h2 : r ∈ db.liveTrades.map (fun r =>
          if ((L.filter (tradeFlagged ps os)).any fun t => t.id == r.id) = true
          then markUnknown r else r) := h
      obtain ⟨r0, hr0, hF⟩ := List.mem_map.mp h2
      by_cases hany : ((L.filter (tradeFlagged ps os)).any (fun x => x.id == r0.id)) = true
      · rw [if_pos hany] at hF
        rw [← hF] at hopen
        simp [markUnknown] at hopen
      · rw [if_neg hany] at hF
        subst hF
        by_contra hcon
        push_neg at hcon
        have hc1 : hasPosL ps r0.marketId = false := by simpa using hcon.1
        have hc2 : hasOrdL os r0.marketId = false := by simpa using hcon.2
        have hr0L : r0 ∈ L := by
          rw [hLdef]
          exact List.mem_filter.mpr ⟨hr0, by simp [openOrPending, hopen]⟩
        have hflag : tradeFlagged ps os r0 = true := by
          simp [tradeFlagged, hc1, hc2, hopen]
        exact hany (List.any_eq_true.mpr ⟨r0, List.mem_filter.mpr ⟨hr0L, hflag⟩, by simp⟩)
    · obtain ⟨ha, hb, p, hp, hm⟩ := hshape r h
      left
      rw [hm]
      simp only [hasPosL, List.any_eq_true]
      exact ⟨p, hp, by simp⟩
  have hF2 : ∀ p ∈ ps, ∃ r ∈ db2.liveTrades, openOrPending r = true ∧ r.marketId = p.marketId := by
    intro p hp
    by_cases hmatch : (L.any (fun t => t.marketId == p.marketId)) = true
    · obtain ⟨t0, ht0L, hbeq⟩ := List.any_eq_true.mp hmatch
      have ht0m : t0.marketId = p.marketId := by simpa using hbeq
      have ht0L2 : t0 ∈ db.liveTrades.filter openOrPending := by rw [← hLdef]; exact ht0L
      have ht0f := List.mem_filter.mp ht0L2
      have hnot : ¬ ((L.filter (tradeFlagged ps os)).any (fun x => x.id == t0.id)) = true := by
        intro hcon
        obtain ⟨t', ht'f, hbeq'⟩ := List.any_eq_true.mp hcon
        obtain ⟨ht'L, ht'flag⟩ := List.mem_filter.mp ht'f
        have ht'L2 : t' ∈ db.liveTrades.filter openOrPending := by rw [← hLdef]; exact ht'L
        have ht'db : t' ∈ db.liveTrades := (List.mem_filter.mp ht'L2).1
        have hid : t'.id = t0.id := by simpa using hbeq'
        have heq : t' = t0 := List.inj_on_of_nodup_map hids ht'db ht0f.1 hid
        rw [heq] at ht'flag
        have hpos : hasPosL ps t0.marketId = true := by
          rw [ht0m]
          simp only [hasPosL, List.any_eq_true]
          exact ⟨p, hp, by simp⟩
        simp [tradeFlagged, hpos] at ht'flag
      have hmem : t0 ∈ a1.1.liveTrades := by
        rw [hdb1]
        show t0 ∈ db.liveTrades.map (fun r =>
          if ((L.filter (tradeFlagged ps os)).any fun t => t.id == r.id) = true
          then markUnknown r else r)
        exact List.mem_map.mpr ⟨t0, ht0f.1, by rw [if_neg hnot]⟩
      refine ⟨t0, ?_, ht0f.2, ht0m⟩
      rw [hpre2]
      exact List.mem_append_left _ hmem
    · have hm2 : (L.any fun t => t.marketId == p.marketId) = false := by simpa using hmatch
      obtain ⟨r, hr, hm1, hst, hnt⟩ := reconLoop2_inserts L p hm2 ps a1 hp
      refine ⟨r, ?_, by simp [openOrPending, hst], hm1⟩
      rw [hdb2]
      exact hr
  have h1n : ∀ t ∈ db2.liveTrades.filter openOrPending, tradeFlagged ps os t = false := by
    intro t ht
    obtain ⟨htdb, htop⟩ := List.mem_filter.mp ht
    by_cases hopen : t.status = "open"
    · rcases hF1 t htdb hopen with h | h
      · simp [tradeFlagged, h]
      · simp [tradeFlagged, h]
    · simp [tradeFlagged, hopen]
  have h2n : ∀ p ∈ ps,
      ((db2.liveTrades.filter openOrPending).any (fun t => t.marketId == p.marketId)) = true := by
    intro p hp
    obtain ⟨r, hr, hrop, hrm⟩ := hF2 p hp
    exact List.any_eq_true.mpr ⟨r, List.mem_filter.mpr ⟨hr, hrop⟩, by simp [hrm]⟩
  have e2 : reconcile smCfg db2
      ⟨some ⟨(fetchBalance env).1, (fetchBalance env).2, ps, os, t1, .api⟩⟩ env t2
      = .ok ((true, []), db2,
        ⟨some ⟨(fetchBalance env).1, (fetchBalance env).2, ps, os, t2, .api⟩⟩) := by
    rw [reconcile_force]
    rw [← hps, ← hos]
    rw [reconLoop1_noop ps os _ h1n (db2, []), reconLoop2_noop _ ps h2n (db2, [])]
    rfl
  exact ⟨_, _, _, _, e1, e2⟩

/-- Witness for C7: the idempotence theorem applied to the concrete
single-pending-row ledger with every upstream source failing. -/
theorem c7_reconcile_idempotent_witness :
    ∃ (r1 : Bool × List String) (db1 : Db) (sm1 sm2 : SMState),
      reconcile { staleThresholdMs := 30000 } dbPend { cachedState := none } envFail 0
        = .ok (r1, db1, sm1)
      ∧ reconcile { staleThresholdMs := 30000 } db1 sm1 envFail 1 = .ok ((true, []), db1, sm2) :=
  c7_reconcile_idempotent { staleThresholdMs := 30000 } dbPend { cachedState := none }
    envFail 0 1 (by decide)

/-- C4 (amended): `reconcile` transitions every locally persisted
TradeRecord with status `open` that matches neither an external position
nor an open order to status `unknown` with a provenance note and records
a discrepancy string; records are never deleted (each keeps its id, with
its status either unchanged or `unknown`) and `pending` records are left
entirely unchanged (the source only repairs `open` ones — this is where
the claim as stated fails); and for every external position with no
matching open/pending local record a new local row with a provenance
note is inserted, with its own discrepancy string. -/
theorem c4_reconcile_repairs (smCfg : SMCfg) (db : Db) (sm : SMState) (env : FetchEnv)
    (now : Int)
    (hids : (db.liveTrades.map (fun t => t.id)).Nodup) :
    ∃ (res : Bool × List String) (db1 : Db) (sm1 : SMState),
      reconcile smCfg db sm env now = .ok (res, db1, sm1)
      ∧ (∀ t0 ∈ db.liveTrades, t0.status = "open" →
          hasPosL (fetchPositionsFromDataAPI env) t0.marketId = false →
          hasOrdL (fetchOpenOrders env) t0.marketId = false →
          discrepancyLocal t0 ∈ res.2
          ∧ ∃ r ∈ db1.liveTrades, r = markUnknown t0)
      ∧ (∀ t0 ∈ db.liveTrades, ∃ r ∈ db1.liveTrades, r.id = t0.id
          ∧ (r.status = t0.status ∨ (r.status = "unknown"
              ∧ r.notes = some "Reconciliation: position not found on Polymarket")))
      ∧ (∀ t0 ∈ db.liveTrades, t0.status = "pending" →
          ∃ r ∈ db1.liveTrades, r = t0)
      ∧ (∀ p ∈ fetchPositionsFromDataAPI env,
          (∀ t ∈ db.liveTrades, openOrPending t = true → ¬ t.marketId = p.marketId) →
          discrepancyExternal p ∈ res.2
          ∧ ∃ r ∈ db1.liveTrades, r.marketId = p.marketId ∧ r.status = "open"
              ∧ r.notes = some "Reconciliation: found on Polymarket") := by
  set ps := fetchPositionsFromDataAPI env with hps
  set os := fetchOpenOrders env with hos
  set L := db.liveTrades.filter openOrPending with hLdef
  set a1 := reconLoop1 ps os L (db, []) with ha1
  set db2 := (reconLoop2 ps L a1).1 with hdb2
  have e1 := reconcile_force smCfg db sm env now
  rw [← hps, ← hos, ← hLdef, ← ha1, ← hdb2] at e1
  obtain ⟨suf, hpre, htrk, hshape⟩ := reconLoop2_db L ps a1
  have hpre2 : db2.liveTrades = a1.1.liveTrades ++ suf := by rw [hdb2]; exact hpre
  have hdb1 := reconLoop1_db ps os L db []
  rw [← ha1] at hdb1
  have hacc1 := reconLoop1_acc ps os L db []
  rw [← ha1] at hacc1
  have hacc2 := reconLoop2_acc L ps a1
  have hmemMark : ∀ t0 ∈ db.liveTrades,
      ((L.filter (tradeFlagged ps os)).any (fun x => x.id == t0.id)) = true →
      markUnknown t0 ∈ db2.liveTrades := by
    intro t0 ht0 hany
    have hmem : markUnknown t0 ∈ a1.1.liveTrades := by
      rw [hdb1]
      show markUnknown t0 ∈ db.liveTrades.map (fun r =>
        if ((L.filter (tradeFlagged ps os)).any fun t => t.id == r.id) = true
        then markUnknown r else r)
      exact List.mem_map.mpr ⟨t0, ht0, by rw [if_pos hany]⟩
    rw [hpre2]
    exact List.mem_append_left _ hmem
  have hmemKeep : ∀ t0 ∈ db.liveTrades,
      ¬ ((L.filter (tradeFlagged ps os)).any (fun x => x.id == t0.id)) = true →
      t0 ∈ db2.liveTrades := by
    intro t0 ht0 hany
    have hmem : t0 ∈ a1.1.liveTrades := by
      rw [hdb1]
      show t0 ∈ db.liveTrades.map (fun r =>
        if ((L.filter (tradeFlagged ps os)).any fun t => t.id == r.id) = true
        then markUnknown r else r)
      exact List.mem_map.mpr ⟨t0, ht0, by rw [if_neg hany]⟩
    rw [hpre2]
    exact List.mem_append_left _ hmem
  refine ⟨_, _, _, e1, ?_, ?_, ?_, ?_⟩
  · intro t0 ht0 hopen hpos hord
    have ht0L : t0 ∈ L := by
      rw [hLdef]
      exact List.mem_filter.mpr ⟨ht0, by simp [openOrPending, hopen]⟩
    have hflag : tradeFlagged ps os t0 = true := by
      simp [tradeFlagged, hpos, hord, hopen]
    have ht0F : t0 ∈ L.filter (tradeFlagged ps os) := List.mem_filter.mpr ⟨ht0L, hflag⟩
    constructor
    · show discrepancyLocal t0 ∈ (reconLoop2 ps L a1).2
      rw [hacc2, hacc1]
      exact List.mem_append_left _ (by
        simp only [List.nil_append]
        exact List.mem_map.mpr ⟨t0, ht0F, rfl⟩)
    · exact ⟨markUnknown t0,
        hmemMark t0 ht0 (List.any_eq_true.mpr ⟨t0, ht0F, by simp⟩), rfl⟩
  · intro t0 ht0
    by_cases hany : ((L.filter (tradeFlagged ps os)).any (fun x => x.id == t0.id)) = true
    · exact ⟨markUnknown t0, hmemMark t0 ht0 hany, rfl, Or.inr ⟨rfl, rfl⟩⟩
    · exact ⟨t0, hmemKeep t0 ht0 hany, rfl, Or.inl rfl⟩
  · intro t0 ht0 hpend
    have hany : ¬ ((L.filter (tradeFlagged ps os)).any (fun x => x.id == t0.id)) = true := by
      intro hcon
      obtain ⟨t', ht'f, hbeq⟩ := List.any_eq_true.mp hcon
      obtain ⟨ht'L, ht'flag⟩ := List.mem_filter.mp ht'f
      have ht'L2 : t' ∈ db.liveTrades.filter openOrPending := by rw [← hLdef]; exact ht'L
      have ht'db : t' ∈ db.liveTrades := (List.mem_filter.mp ht'L2).1
      have hid : t'.id = t0.id := by simpa using hbeq
      have heq : t' = t0 := List.inj_on_of_nodup_map hids ht'db ht0 hid
      rw [heq] at ht'flag
      simp [tradeFlagged, hpend] at ht'flag
    exact ⟨t0, hmemKeep t0 ht0 hany, rfl⟩
  · intro p hp hnom
    have hm2 : (L.any fun t => t.marketId == p.marketId) = false := by
      by_contra hcon
      have hcon2 : (L.any fun t => t.marketId == p.marketId) = true := by simpa using hcon
      obtain ⟨t, htL, hbeq⟩ := List.any_eq_true.mp hcon2
      have htL2 : t ∈ db.liveTrades.filter openOrPending := by rw [← hLdef]; exact htL
      obtain ⟨htdb, htop⟩ := List.mem_filter.mp htL2
      exact hnom t htdb htop (by simpa using hbeq)
    constructor
    · show discrepancyExternal p ∈ (reconLoop2 ps L a1).2
      rw [hacc2]
      refine List.mem_append_right _ (List.mem_map.mpr ⟨p, ?_, rfl⟩)
      exact List.mem_filter.mpr ⟨hp, by simp [hm2]⟩
    · obtain ⟨r, hr, hm1, hst, hnt⟩ := reconLoop2_inserts L p hm2 ps a1 hp
      refine ⟨r, ?_, hm1, hst, hnt⟩
      rw [hdb2]
      exact hr

/-- Counterexample for C4: a ledger whose only row is a `pending` trade
for market m1, reconciled against an external state with no positions
and no open orders, is left entirely unchanged with zero discrepancies —
the pending record is not transitioned to `unknown` as the claim states. -/
theorem c4_counterexample :
    reconcile { staleThresholdMs := 30000 } dbPend { cachedState := none } envFail 0
      = .ok ((true, []), dbPend, ⟨some ⟨0, 0, [], [], 0, .api⟩⟩)
    ∧ dbPend.liveTrades.map (fun t => t.status) = ["pending"] := by
  constructor
  · have hb1 : (fetchBalance envFail).1 = 0 := by
      simp [fetchBalance, fetchOnChainUSDC, envFail]
    have hb2 : (fetchBalance envFail).2 = 0 := by
      simp [fetchBalance, fetchOnChainUSDC, envFail]
    have h := reconcile_force { staleThresholdMs := 30000 } dbPend { cachedState := none }
      envFail 0
    rw [hb1, hb2] at h
    rw [h]
    decide
  · decide

/-- Witness for C4: the amended theorem applied to the concrete ledger
holding one stranded `open` row, with every upstream source failing: the
row is transitioned to `unknown` and its discrepancy string recorded. -/
theorem c4_reconcile_repairs_witness :
    ∃ (res : Bool × List String) (db1 : Db) (sm1 : SMState),
      reconcile { staleThresholdMs := 30000 } dbOpen { cachedState := none } envFail 0
        = .ok (res, db1, sm1)
      ∧ discrepancyLocal openRow ∈ res.2
      ∧ ∃ r ∈ db1.liveTrades, r = markUnknown openRow := by
  obtain ⟨res, db1, sm1, heq, pa, pb, pd, pe⟩ :=
    c4_reconcile_repairs { staleThresholdMs := 30000 } dbOpen { cachedState := none }
      envFail 0 (by decide)
  obtain ⟨h1, h2⟩ := pa openRow (by decide) rfl (by decide) (by decide)
  exact ⟨res, db1, sm1, heq, h1, h2⟩
